import Mathlib

/-
Verification development for the streaming PDF document writer and the
streaming merger of PDF4QT (sources: pdfstreamingdocumentwriter.h, both
the class declarations and the member definitions).

Conventions of the embedding:
  * Bytes are modelled as natural numbers (their 8-bit values); the byte
    sink is an append-only list of bytes together with a sticky failure
    flag and a count of attempted write calls.
  * QIODevice.pos() is the number of bytes held by the sink, matching the
    append-only use the writer makes of the device.
  * PDFInteger is Int.  Machine overflow is irrelevant here: the writer
    never performs arithmetic that can wrap for the sizes involved.
  * The visitReal case of the C++ serializer formats an IEEE double and is
    deliberately left out of the PDFObject variant: no claim touches it and
    floating point has no shallow embedding.
  * Many small consecutive device writes in the C++ code are modelled as
    one write of the concatenation; on a healthy sink the byte streams are
    identical, and the attempt counter counts modelled write calls.
-/

namespace PDF4QT

/-- ASCII bytes of a string literal, used to transcribe the byte strings
the C++ code writes. -/
def bs (s : String) : List Nat := s.toList.map Char.toNat

/-- The CRLF pair written by PDFStreamingDocumentWriter.writeCRLF. -/
def crlf : List Nat := [13, 10]

/-- Fuel-driven accumulator loop producing the decimal digits of a natural
number, most significant first (QString.number for nonnegative values). -/
def natToDecimalGo : Nat → Nat → List Nat → List Nat
| 0, _, acc => acc
| fuel + 1, n, acc =>
  if n < 10 then (48 + n) :: acc
  else natToDecimalGo fuel (n / 10) ((48 + n % 10) :: acc)

/-- Decimal ASCII representation of a natural number. -/
def natToDecimal (n : Nat) : List Nat := natToDecimalGo (n + 1) n []

/-- Decimal ASCII representation of a PDFInteger (QString.number): a minus
sign followed by the digits for negative values. -/
def intToDecimal (i : Int) : List Nat :=
  if i < 0 then 45 :: natToDecimal i.natAbs else natToDecimal i.natAbs

/-- Lowercase hexadecimal digit character for a value below 16
(QByteArray.toHex). -/
def hexDigit (n : Nat) : Nat := if n < 10 then 48 + n else 87 + n

/-- Two lowercase hex digits of one byte (QByteArray.toHex). -/
def byteToHex (b : Nat) : List Nat := [hexDigit (b / 16), hexDigit (b % 16)]

/-- Concatenation of a list of byte lists. -/
def joinBytes : List (List Nat) → List Nat
| [] => []
| x :: xs => x ++ joinBytes xs

/-- PDFObjectReference from pdfobject.h.  Modelled from the spec: the
struct itself is not under src; the spec describes references as pairs
with object number at least 1 for valid references, and the writer
returns a default-constructed (invalid) reference on failure. -/
structure PDFObjectReference where
  objectNumber : Int := -1
  generation : Int := -1
deriving DecidableEq, Repr

/-- Modelled from the spec: a valid reference has object number at least 1
and nonnegative generation; the default-constructed reference is invalid. -/
def PDFObjectReference.isValid (r : PDFObjectReference) : Bool :=
  decide (1 ≤ r.objectNumber) && decide (0 ≤ r.generation)

mutual

/-- The PDF value variant (pdfobject.h), restricted to the cases the
serializer in pdfstreamingdocumentwriter.h handles; the real case (IEEE
double) is omitted, see the header comment.  Stream dictionaries are
inlined as their entry list, matching visitStream which serializes the
dictionary of the stream first.  Arrays and dictionaries carry their own
list types so that the serializer is structurally recursive. -/
inductive PDFObject where
| null
| boolean (b : Bool)
| int (i : Int)
| string (s : List Nat)
| name (s : List Nat)
| array (xs : PDFObjectList)
| dict (entries : PDFDictEntries)
| stream (entries : PDFDictEntries) (content : List Nat)
| ref (r : PDFObjectReference)
deriving Repr

inductive PDFObjectList where
| nil
| cons (head : PDFObject) (tail : PDFObjectList)
deriving Repr

inductive PDFDictEntries where
| nil
| cons (key : List Nat) (value : PDFObject) (tail : PDFDictEntries)
deriving Repr

end

/-- Conversion from an ordinary list of objects. -/
def objectListOf : List PDFObject → PDFObjectList
| [] => .nil
| x :: xs => .cons x (objectListOf xs)

/-- Conversion from an ordinary list of key-value pairs. -/
def dictEntriesOf : List (List Nat × PDFObject) → PDFDictEntries
| [] => .nil
| (k, v) :: rest => .cons k v (dictEntriesOf rest)

/-- PDFObject.isNull from pdfobject.h. -/
def PDFObject.isNull : PDFObject → Bool
| .null => true
| _ => false

/-- Modelled from the spec: PDFLexicalAnalyzer.isRegular (pdfparser.h is
not under src).  A regular character is printable ASCII that is neither
whitespace nor one of the delimiters, nor the hash mark. -/
def isRegular (c : Nat) : Bool :=
  decide (33 ≤ c) && decide (c ≤ 126) &&
  !([40, 41, 60, 62, 91, 93, 123, 125, 47, 37, 35].contains c)

/-- One character of a serialized name: verbatim when regular, otherwise a
hash mark followed by two hex digits (visitName). -/
def serializeNameChar (c : Nat) : List Nat :=
  if isRegular c then [c] else 35 :: byteToHex c

/-- A serialized name: slash, escaped characters, trailing space
(visitName). -/
def serializeName (s : List Nat) : List Nat :=
  bs "/" ++ joinBytes (s.map serializeNameChar) ++ bs " "

mutual

/-- The object serializer: PDFStreamingWriteObjectVisitor as a pure
function from the object to the emitted bytes.  visitArray wraps the
elements in brackets, visitDictionary serializes each key as a name
followed by the value, visitStream serializes the dictionary and then the
raw content between the stream markers, visitReference emits both numbers
through visitInt. -/
def serializeObject : PDFObject → List Nat
| .null => bs "null "
| .boolean b => if b then bs "true " else bs "false "
| .int i => intToDecimal i ++ bs " "
| .string s =>
  (if s.contains 40 || s.contains 41 || s.contains 92 then
    bs "<" ++ joinBytes (s.map byteToHex) ++ bs ">"
  else
    bs "(" ++ s ++ bs ")") ++ bs " "
| .name s => serializeName s
| .array xs => bs "[ " ++ serializeObjectList xs ++ bs "] "
| .dict es => bs "<< " ++ serializeDictEntries es ++ bs ">> "
| .stream es content =>
  bs "<< " ++ serializeDictEntries es ++ bs ">> " ++
  bs "stream" ++ crlf ++ content ++ crlf ++ bs "endstream" ++ crlf
| .ref r => intToDecimal r.objectNumber ++ bs " " ++ intToDecimal r.generation ++ bs " " ++ bs "R "

def serializeObjectList : PDFObjectList → List Nat
| .nil => []
| .cons x xs => serializeObject x ++ serializeObjectList xs

def serializeDictEntries : PDFDictEntries → List Nat
| .nil => []
| .cons k v rest => serializeName k ++ serializeObject v ++ serializeDictEntries rest

end

/-- The byte sink (QIODevice as the writer uses it): an append-only byte
list with position query.  Modelled from the spec for the failure side:
a failed write appends nothing and the failure is sticky (QSaveFile
semantics, section 4.2 of the spec); attempts counts write calls. -/
structure Device where
  bytes : List Nat := []
  failed : Bool := false
  writable : Bool := true
  attempts : Nat := 0
deriving Repr

/-- One write call on the sink. -/
def Device.write (d : Device) (data : List Nat) : Device :=
  if d.failed then { d with attempts := d.attempts + 1 }
  else { d with bytes := d.bytes ++ data, attempts := d.attempts + 1 }

/-- QIODevice.pos: the byte position of the append-only sink. -/
def Device.pos (d : Device) : Int := d.bytes.length

/-- ObjectEntry from PDFStreamingDocumentWriter: offset -1 means not yet
written. -/
structure ObjectEntry where
  offset : Int := -1
  generation : Int := 0
  isReserved : Bool := false
deriving DecidableEq, Repr

/-- PDFOperationResult: success or a failure message. -/
inductive PDFOperationResult where
| success
| failure (message : String)
deriving DecidableEq, Repr

/-- PDFStreamingDocumentWriter state.  The constructor pushes the always
free slot 0 with generation 65535. -/
structure PDFStreamingDocumentWriter where
  device : Device
  version : Nat × Nat := (1, 7)
  isOpen : Bool := false
  objectOffsets : List ObjectEntry := [{ offset := -1, generation := 65535, isReserved := false }]
  pages : List PDFObjectReference := []
  catalogReference : PDFObjectReference := {}
  infoReference : PDFObjectReference := {}
deriving Repr

/-- The PDFStreamingDocumentWriter constructor over a device. -/
def mkWriter (device : Device) : PDFStreamingDocumentWriter := { device := device }

/-- getObjectCount: the size of the offset table. -/
def PDFStreamingDocumentWriter.getObjectCount (w : PDFStreamingDocumentWriter) : Nat :=
  w.objectOffsets.length

/-- writeCRLF. -/
def PDFStreamingDocumentWriter.writeCRLF (w : PDFStreamingDocumentWriter) :
    PDFStreamingDocumentWriter :=
  { w with device := w.device.write crlf }

/-- Modelled from the spec: the PDF_LIBRARY_NAME constant of
pdfconstants.h, which is not under src; only its byte identity matters. -/
def pdfLibraryName : List Nat := bs "PDF4QT"

/-- beginDocument: write the header lines and open the writer. -/
def PDFStreamingDocumentWriter.beginDocument (w : PDFStreamingDocumentWriter)
    (version : Nat × Nat) : PDFStreamingDocumentWriter × Bool :=
  if !w.device.writable then (w, false)
  else
    let versionLine := bs "%PDF-" ++ natToDecimal version.1 ++ bs "." ++ natToDecimal version.2
    let producerLine := bs "% PDF producer: " ++ pdfLibraryName ++ bs " (PDF4QT-Opus Streaming Writer)"
    let w := { w with version := version, isOpen := true }
    let w := { w with device := w.device.write versionLine }
    let w := w.writeCRLF
    let w := { w with device := w.device.write producerLine }
    let w := w.writeCRLF
    let w := { w with device := w.device.write (bs "%" ++ [0xE2, 0xE3, 0xCF, 0xD3]) }
    let w := w.writeCRLF
    let w := w.writeCRLF
    (w, true)

/-- writeObjectHeader: the line with object number, generation and obj. -/
def PDFStreamingDocumentWriter.writeObjectHeader (w : PDFStreamingDocumentWriter)
    (reference : PDFObjectReference) : PDFStreamingDocumentWriter :=
  let header := intToDecimal reference.objectNumber ++ bs " " ++
    intToDecimal reference.generation ++ bs " obj"
  let w := { w with device := w.device.write header }
  w.writeCRLF

/-- writeObjectFooter: the endobj line. -/
def PDFStreamingDocumentWriter.writeObjectFooter (w : PDFStreamingDocumentWriter) :
    PDFStreamingDocumentWriter :=
  let w := { w with device := w.device.write (bs "endobj") }
  w.writeCRLF

/-- The private writeObject overload serializing an object body through the
visitor. -/
def PDFStreamingDocumentWriter.writeObjectContent (w : PDFStreamingDocumentWriter)
    (object : PDFObject) : PDFStreamingDocumentWriter :=
  { w with device := w.device.write (serializeObject object) }

/-- writeObject: allocate the next object number, record the offset, and
emit header, body and footer.  Returns the default (invalid) reference
when the writer is not open. -/
def PDFStreamingDocumentWriter.writeObject (w : PDFStreamingDocumentWriter)
    (object : PDFObject) (generation : Int) :
    PDFStreamingDocumentWriter × PDFObjectReference :=
  if !w.isOpen then (w, {})
  else
    let objectNumber : Int := w.objectOffsets.length
    let reference : PDFObjectReference := { objectNumber := objectNumber, generation := generation }
    let entry : ObjectEntry := { offset := w.device.pos, generation := generation, isReserved := false }
    let w := { w with objectOffsets := w.objectOffsets ++ [entry] }
    let w := w.writeObjectHeader reference
    let w := w.writeObjectContent object
    let w := w.writeObjectFooter
    (w, reference)

/-- reserveObject: allocate the next object number with a sentinel offset.
Note the source performs no open-state check here. -/
def PDFStreamingDocumentWriter.reserveObject (w : PDFStreamingDocumentWriter)
    (generation : Int) : PDFStreamingDocumentWriter × PDFObjectReference :=
  let objectNumber : Int := w.objectOffsets.length
  ({ w with objectOffsets :=
      w.objectOffsets ++ [{ offset := -1, generation := generation, isReserved := true }] },
   { objectNumber := objectNumber, generation := generation })

/-- writeReservedObject: fulfill a previously reserved slot. -/
def PDFStreamingDocumentWriter.writeReservedObject (w : PDFStreamingDocumentWriter)
    (reference : PDFObjectReference) (object : PDFObject) :
    PDFStreamingDocumentWriter × Bool :=
  if !w.isOpen ∨ reference.objectNumber < 0 ∨
      (w.objectOffsets.length : Int) ≤ reference.objectNumber then
    (w, false)
  else
    let idx := reference.objectNumber.toNat
    let entry := w.objectOffsets.getD idx {}
    if !entry.isReserved ∨ entry.offset ≠ -1 then (w, false)
    else
      let fulfilled : ObjectEntry := { entry with offset := w.device.pos, isReserved := false }
      let w := { w with objectOffsets := w.objectOffsets.set idx fulfilled }
      let w := w.writeObjectHeader reference
      let w := w.writeObjectContent object
      let w := w.writeObjectFooter
      (w, true)

/-- addPage: append the page reference.  The source performs no open-state
check here. -/
def PDFStreamingDocumentWriter.addPage (w : PDFStreamingDocumentWriter)
    (pageReference : PDFObjectReference) : PDFStreamingDocumentWriter :=
  { w with pages := w.pages ++ [pageReference] }

/-- setCatalogReference. -/
def PDFStreamingDocumentWriter.setCatalogReference (w : PDFStreamingDocumentWriter)
    (catalogReference : PDFObjectReference) : PDFStreamingDocumentWriter :=
  { w with catalogReference := catalogReference }

/-- setInfoReference. -/
def PDFStreamingDocumentWriter.setInfoReference (w : PDFStreamingDocumentWriter)
    (infoReference : PDFObjectReference) : PDFStreamingDocumentWriter :=
  { w with infoReference := infoReference }

/-- createPageTree: a flat page tree with Kids in insertion order. -/
def PDFStreamingDocumentWriter.createPageTree (w : PDFStreamingDocumentWriter) :
    PDFStreamingDocumentWriter × PDFObjectReference :=
  let object := PDFObject.dict (dictEntriesOf
    [(bs "Type", PDFObject.name (bs "Pages")),
     (bs "Kids", PDFObject.array (objectListOf (w.pages.map PDFObject.ref))),
     (bs "Count", PDFObject.int w.pages.length)])
  w.writeObject object 0

/-- createCatalog: a minimal catalog naming the page tree root. -/
def PDFStreamingDocumentWriter.createCatalog (w : PDFStreamingDocumentWriter)
    (pageTreeRoot : PDFObjectReference) : PDFStreamingDocumentWriter × PDFObjectReference :=
  let object := PDFObject.dict (dictEntriesOf
    [(bs "Type", PDFObject.name (bs "Catalog")),
     (bs "Pages", PDFObject.ref pageTreeRoot)])
  w.writeObject object 0

/-- Scan of the unfulfilled-reservation check in endDocument, starting at
slot index i. -/
def firstUnfulfilledGo : List ObjectEntry → Nat → Option Nat
| [], _ => none
| e :: rest, i =>
  if e.isReserved = true ∧ e.offset = -1 then some i else firstUnfulfilledGo rest (i + 1)

/-- The unfulfilled-reservation check of endDocument: the loop starts at
slot 1. -/
def firstUnfulfilled (entries : List ObjectEntry) : Option Nat :=
  match entries with
  | [] => none
  | _ :: rest => firstUnfulfilledGo rest 1

/-- QString.rightJustified with truncation enabled, over byte lists. -/
def rightJustified (s : List Nat) (width : Nat) (fill : Nat) : List Nat :=
  if s.length < width then List.replicate (width - s.length) fill ++ s else s.take width

/-- The free-or-in-use flag of one xref row. -/
def xrefEntryFlag (i : Nat) (entry : ObjectEntry) : List Nat :=
  if i = 0 ∨ entry.offset = -1 then bs "f" else bs "n"

/-- One xref row as endDocument formats it. -/
def xrefRow (i : Nat) (entry : ObjectEntry) : List Nat :=
  let offset : Int := if entry.offset = -1 then 0 else entry.offset
  rightJustified (intToDecimal offset) 10 48 ++ bs " " ++
  rightJustified (intToDecimal entry.generation) 5 48 ++ bs " " ++
  xrefEntryFlag i entry ++ crlf

/-- All xref rows from slot index i on. -/
def xrefRowsGo : List ObjectEntry → Nat → List Nat
| [], _ => []
| e :: rest, i => xrefRow i e ++ xrefRowsGo rest (i + 1)

/-- The trailer dictionary built by endDocument. -/
def trailerDictionary (w : PDFStreamingDocumentWriter) : PDFObject :=
  PDFObject.dict (dictEntriesOf
    ([(bs "Size", PDFObject.int w.objectOffsets.length),
      (bs "Root", PDFObject.ref w.catalogReference)] ++
     (if w.infoReference.isValid then [(bs "Info", PDFObject.ref w.infoReference)] else [])))

/-- The catalog synthesis step at the head of a successful endDocument:
when no catalog reference was set, create the page tree and a catalog for
it and record the catalog reference. -/
def PDFStreamingDocumentWriter.synthesizeCatalogStep (w : PDFStreamingDocumentWriter) :
    PDFStreamingDocumentWriter :=
  if !w.catalogReference.isValid then
    let p1 := w.createPageTree
    let p2 := p1.1.createCatalog p1.2
    { p2.1 with catalogReference := p2.2 }
  else w

/-- endDocument: check reservations, synthesize the catalog when unset,
emit the xref table, the trailer, startxref and the EOF marker. -/
def PDFStreamingDocumentWriter.endDocument (w : PDFStreamingDocumentWriter) :
    PDFStreamingDocumentWriter × PDFOperationResult :=
  if !w.isOpen then (w, .failure "Document is not open.")
  else
    match firstUnfulfilled w.objectOffsets with
    | some i => (w, .failure ("Reserved object " ++ Nat.repr i ++ " was never written."))
    | none =>
      let w := w.synthesizeCatalogStep
      let xrefOffset := w.device.pos
      let w := { w with device := w.device.write (bs "xref") }
      let w := w.writeCRLF
      let w := { w with device := w.device.write (bs "0 " ++ natToDecimal w.objectOffsets.length) }
      let w := w.writeCRLF
      let w := { w with device := w.device.write (xrefRowsGo w.objectOffsets 0) }
      let w := { w with device := w.device.write (bs "trailer") }
      let w := w.writeCRLF
      let w := { w with device := w.device.write (serializeObject (trailerDictionary w)) }
      let w := w.writeCRLF
      let w := { w with device := w.device.write (bs "startxref") }
      let w := w.writeCRLF
      let w := { w with device := w.device.write (intToDecimal xrefOffset) }
      let w := w.writeCRLF
      let w := { w with device := w.device.write (bs "%%EOF") }
      ({ w with isOpen := false }, .success)

/-- One slot of a source document object storage.  Modelled from the spec:
PDFObjectStorage (pdfdocument.h, not under src) provides an ordered slot
array of generation and value, where a null value marks a free slot. -/
structure SourceEntry where
  object : PDFObject := PDFObject.null
  generation : Int := 0

/-- A parsed source document as the merger consumes it.  Modelled from the
spec: the document supplies the slot array and the ordered list of page
object references (the catalog page list). -/
structure SourceDocument where
  objects : List SourceEntry := []
  pages : List PDFObjectReference := []

/-- The merger-local mapping from source references to destination
references (std.map used only through insertion of distinct keys and
lookup). -/
abbrev ReferenceMapping := List (PDFObjectReference × PDFObjectReference)

/-- Lookup in the reference mapping. -/
def lookupRef (m : ReferenceMapping) (r : PDFObjectReference) : Option PDFObjectReference :=
  (m.find? (fun p => decide (p.1 = r))).map (fun p => p.2)

mutual

/-- Modelled from the spec: PDFObjectUtils.replaceReferences
(pdfobjectutils.h, not under src).  Produces a structurally identical
copy in which every reference present in the mapping is replaced by its
image; references absent from the mapping are preserved; recursion goes
into arrays, dictionary values and stream dictionaries, and stream
content is copied unchanged. -/
def replaceReferences : PDFObject → ReferenceMapping → PDFObject
| .ref r, m =>
  match lookupRef m r with
  | some r2 => .ref r2
  | none => .ref r
| .array xs, m => .array (replaceReferencesList xs m)
| .dict es, m => .dict (replaceReferencesEntries es m)
| .stream es content, m => .stream (replaceReferencesEntries es m) content
| obj, _ => obj

def replaceReferencesList : PDFObjectList → ReferenceMapping → PDFObjectList
| .nil, _ => .nil
| .cons x xs, m => .cons (replaceReferences x m) (replaceReferencesList xs m)

def replaceReferencesEntries : PDFDictEntries → ReferenceMapping → PDFDictEntries
| .nil, _ => .nil
| .cons k v rest, m => .cons k (replaceReferences v m) (replaceReferencesEntries rest m)

end

/-- The first pass of PDFStreamingMerger.addDocument over the source slots
from index i on: reserve a slot at generation 0 for every non-null source
slot and record the mapping entry. -/
def reservePass (w : PDFStreamingDocumentWriter) :
    List SourceEntry → Nat → ReferenceMapping →
    PDFStreamingDocumentWriter × ReferenceMapping
| [], _, mapping => (w, mapping)
| e :: rest, i, mapping =>
  if e.object.isNull then reservePass w rest (i + 1) mapping
  else
    let result := w.reserveObject 0
    let oldRef : PDFObjectReference := { objectNumber := (i : Int), generation := e.generation }
    reservePass result.1 rest (i + 1) (mapping ++ [(oldRef, result.2)])

/-- The second pass of PDFStreamingMerger.addDocument: write every
non-null slot, with its references rewritten through the mapping, against
the reference reserved for it. -/
def emitPass (w : PDFStreamingDocumentWriter) :
    List SourceEntry → Nat → ReferenceMapping → PDFStreamingDocumentWriter
| [], _, _ => w
| e :: rest, i, mapping =>
  if e.object.isNull then emitPass w rest (i + 1) mapping
  else
    let oldRef : PDFObjectReference := { objectNumber := (i : Int), generation := e.generation }
    let newRef := (lookupRef mapping oldRef).getD {}
    let updatedObject := replaceReferences e.object mapping
    emitPass (w.writeReservedObject newRef updatedObject).1 rest (i + 1) mapping

/-- The page pass of PDFStreamingMerger.addDocument: append the mapped
reference of every source page found in the mapping, counting them. -/
def pagePass (w : PDFStreamingDocumentWriter) :
    List PDFObjectReference → ReferenceMapping →
    PDFStreamingDocumentWriter × Nat
| [], _ => (w, 0)
| p :: rest, mapping =>
  match lookupRef mapping p with
  | some r =>
    let result := pagePass (w.addPage r) rest mapping
    (result.1, result.2 + 1)
  | none => pagePass w rest mapping

/-- PDFStreamingMerger state, once begin has installed the writer.  The
output path, the progress object and the QSaveFile commit step live
outside the byte-level model. -/
structure PDFStreamingMerger where
  writer : PDFStreamingDocumentWriter
  totalPages : Nat := 0
  totalDocuments : Nat := 0

/-- PDFStreamingMerger.addDocument: reserve pass over slots 1 and up, emit
pass over the same slots, then the page pass, then the counters. -/
def PDFStreamingMerger.addDocument (m : PDFStreamingMerger) (document : SourceDocument) :
    PDFStreamingMerger × Bool :=
  if !m.writer.isOpen then (m, false)
  else
    let passResult := reservePass m.writer (document.objects.drop 1) 1 []
    let w := emitPass passResult.1 (document.objects.drop 1) 1 passResult.2
    let pageResult := pagePass w document.pages passResult.2
    ({ writer := pageResult.1,
       totalPages := m.totalPages + pageResult.2,
       totalDocuments := m.totalDocuments + 1 }, true)

/-
Basic facts about the device and the writer operations.
-/

theorem Device.write_bytes_healthy (d : Device) (data : List Nat) (h : d.failed = false) :
    (d.write data).bytes = d.bytes ++ data := by
  simp [Device.write, h]

theorem Device.write_failed_eq (d : Device) (data : List Nat) :
    (d.write data).failed = d.failed := by
  unfold Device.write
  split <;> rfl

/-- The full header line emitted for one indirect object: object number,
space, generation, space, obj, CRLF. -/
def headerPattern (objectNumber generation : Int) : List Nat :=
  intToDecimal objectNumber ++ bs " " ++ intToDecimal generation ++ bs " obj" ++ crlf

/-- The byte pattern pat occurs in bytes starting at the given position. -/
def startsWithAt (bytes : List Nat) (position : Nat) (pat : List Nat) : Prop :=
  (bytes.drop position).take pat.length = pat

instance (bytes : List Nat) (position : Nat) (pat : List Nat) :
    Decidable (startsWithAt bytes position pat) :=
  inferInstanceAs (Decidable ((bytes.drop position).take pat.length = pat))

theorem startsWithAt_append (a b : List Nat) (p : Nat) (pat : List Nat)
    (h : startsWithAt a p pat) : startsWithAt (a ++ b) p pat := by
  unfold startsWithAt at h ⊢
  have hlen : pat.length ≤ (a.drop p).length := by
    have hl := congrArg List.length h
    simp only [List.length_take] at hl
    exact le_trans (le_of_eq hl.symm) (min_le_right _ _)
  rw [List.drop_append_eq_append_drop, List.take_append_eq_append_take, h,
    Nat.sub_eq_zero_of_le hlen, List.take_zero, List.append_nil]

theorem startsWithAt_first (a pat rest : List Nat) :
    startsWithAt (a ++ (pat ++ rest)) a.length pat := by
  unfold startsWithAt
  rw [List.drop_append_eq_append_drop, Nat.sub_self, List.drop_length,
    List.drop_zero, List.nil_append, List.take_append_eq_append_take,
    List.take_of_length_le (le_refl _), Nat.sub_self, List.take_zero, List.append_nil]

theorem writeObject_not_open (w : PDFStreamingDocumentWriter) (object : PDFObject)
    (generation : Int) (h : w.isOpen = false) :
    w.writeObject object generation = (w, {}) := by
  simp [PDFStreamingDocumentWriter.writeObject, h]

theorem writeObject_open (w : PDFStreamingDocumentWriter) (object : PDFObject)
    (generation : Int) (hOpen : w.isOpen = true) (hFail : w.device.failed = false) :
    w.writeObject object generation =
      ({ w with
          objectOffsets := w.objectOffsets ++
            [{ offset := w.device.pos, generation := generation, isReserved := false }],
          device := { w.device with
            bytes := w.device.bytes ++
              (headerPattern (w.objectOffsets.length : Int) generation ++
               serializeObject object ++ bs "endobj" ++ crlf),
            attempts := w.device.attempts + 5 } },
       { objectNumber := (w.objectOffsets.length : Int), generation := generation }) := by
  simp [PDFStreamingDocumentWriter.writeObject, hOpen,
    PDFStreamingDocumentWriter.writeObjectHeader,
    PDFStreamingDocumentWriter.writeObjectContent,
    PDFStreamingDocumentWriter.writeObjectFooter,
    PDFStreamingDocumentWriter.writeCRLF, Device.write, hFail, headerPattern, bs, crlf]

theorem reserveObject_spec (w : PDFStreamingDocumentWriter) (generation : Int) :
    w.reserveObject generation =
      ({ w with objectOffsets := w.objectOffsets ++
          [{ offset := -1, generation := generation, isReserved := true }] },
       { objectNumber := (w.objectOffsets.length : Int), generation := generation }) := rfl

theorem writeReservedObject_not_open (w : PDFStreamingDocumentWriter)
    (reference : PDFObjectReference) (object : PDFObject) (h : w.isOpen = false) :
    w.writeReservedObject reference object = (w, false) := by
  simp [PDFStreamingDocumentWriter.writeReservedObject, h]

theorem writeReservedObject_out_of_range (w : PDFStreamingDocumentWriter)
    (reference : PDFObjectReference) (object : PDFObject)
    (h : reference.objectNumber < 0 ∨ (w.objectOffsets.length : Int) ≤ reference.objectNumber) :
    w.writeReservedObject reference object = (w, false) := by
  unfold PDFStreamingDocumentWriter.writeReservedObject
  rcases h with h | h
  · rw [if_pos (Or.inr (Or.inl h))]
  · rw [if_pos (Or.inr (Or.inr h))]

theorem writeReservedObject_not_reserved (w : PDFStreamingDocumentWriter)
    (reference : PDFObjectReference) (object : PDFObject)
    (h : ¬((w.objectOffsets.getD reference.objectNumber.toNat {}).isReserved = true ∧
           (w.objectOffsets.getD reference.objectNumber.toNat {}).offset = -1)) :
    w.writeReservedObject reference object = (w, false) := by
  unfold PDFStreamingDocumentWriter.writeReservedObject
  split
  · rfl
  · rw [if_pos]
    rcases Decidable.not_and_iff_or_not.mp h with h2 | h2
    · exact Or.inl (by simp only [Bool.not_eq_true', ← Bool.not_eq_true]; exact h2)
    · exact Or.inr h2

theorem writeReservedObject_success (w : PDFStreamingDocumentWriter)
    (reference : PDFObjectReference) (object : PDFObject)
    (hOpen : w.isOpen = true) (hFail : w.device.failed = false)
    (hn : 0 ≤ reference.objectNumber)
    (hlt : reference.objectNumber < (w.objectOffsets.length : Int))
    (hres : (w.objectOffsets.getD reference.objectNumber.toNat {}).isReserved = true)
    (hoff : (w.objectOffsets.getD reference.objectNumber.toNat {}).offset = -1) :
    w.writeReservedObject reference object =
      ({ w with
          objectOffsets := w.objectOffsets.set reference.objectNumber.toNat
            { w.objectOffsets.getD reference.objectNumber.toNat {} with
                offset := w.device.pos, isReserved := false },
          device := { w.device with
            bytes := w.device.bytes ++
              (headerPattern reference.objectNumber reference.generation ++
               serializeObject object ++ bs "endobj" ++ crlf),
            attempts := w.device.attempts + 5 } },
       true) := by
  have hn' : ¬(reference.objectNumber < 0) := not_lt.mpr hn
  have hlt' : ¬((w.objectOffsets.length : Int) ≤ reference.objectNumber) := not_le.mpr hlt
  simp only [List.getD_eq_getElem?_getD] at hres hoff
  simp [PDFStreamingDocumentWriter.writeReservedObject, hOpen, hn', hlt', hres, hoff,
    PDFStreamingDocumentWriter.writeObjectHeader,
    PDFStreamingDocumentWriter.writeObjectContent,
    PDFStreamingDocumentWriter.writeObjectFooter,
    PDFStreamingDocumentWriter.writeCRLF, Device.write, hFail, headerPattern, bs, crlf]

theorem addPage_spec (w : PDFStreamingDocumentWriter) (reference : PDFObjectReference) :
    w.addPage reference = { w with pages := w.pages ++ [reference] } := rfl

theorem endDocument_not_open (w : PDFStreamingDocumentWriter) (h : w.isOpen = false) :
    w.endDocument = (w, .failure "Document is not open.") := by
  simp [PDFStreamingDocumentWriter.endDocument, h]

theorem endDocument_unfulfilled (w : PDFStreamingDocumentWriter) (i : Nat)
    (hOpen : w.isOpen = true) (h : firstUnfulfilled w.objectOffsets = some i) :
    w.endDocument =
      (w, .failure ("Reserved object " ++ Nat.repr i ++ " was never written.")) := by
  simp [PDFStreamingDocumentWriter.endDocument, hOpen, h]

/-- The bytes a successful endDocument appends after the catalog synthesis
step: xref table, trailer, startxref and the EOF marker. -/
def finalizeTail (w : PDFStreamingDocumentWriter) : List Nat :=
  bs "xref" ++ crlf ++ (bs "0 " ++ natToDecimal w.objectOffsets.length) ++ crlf ++
  xrefRowsGo w.objectOffsets 0 ++ bs "trailer" ++ crlf ++
  serializeObject (trailerDictionary w) ++ crlf ++ bs "startxref" ++ crlf ++
  intToDecimal w.device.pos ++ crlf ++ bs "%%EOF"

theorem endDocument_success (w : PDFStreamingDocumentWriter)
    (hOpen : w.isOpen = true) (hNone : firstUnfulfilled w.objectOffsets = none)
    (hFail : w.synthesizeCatalogStep.device.failed = false) :
    w.endDocument =
      ({ w.synthesizeCatalogStep with
          device := { w.synthesizeCatalogStep.device with
            bytes := w.synthesizeCatalogStep.device.bytes ++ finalizeTail w.synthesizeCatalogStep,
            attempts := w.synthesizeCatalogStep.device.attempts + 14 },
          isOpen := false }, .success) := by
  unfold PDFStreamingDocumentWriter.endDocument
  simp only [hOpen, Bool.not_true, Bool.false_eq_true, if_false, hNone]
  simp [PDFStreamingDocumentWriter.writeCRLF, Device.write, Device.pos, hFail, finalizeTail]
  congr 1

/-
Claim theorems.
-/

/-- C8: the serializer emits a string in hex form exactly when the payload
contains a left parenthesis (byte 40), a right parenthesis (byte 41) or a
backslash (byte 92); a string free of all three is emitted in literal
form; both forms carry a single trailing space. -/
theorem c8_string_form (s : List Nat) :
    ((40 ∈ s ∨ 41 ∈ s ∨ 92 ∈ s) →
      serializeObject (PDFObject.string s) =
        (bs "<" ++ joinBytes (s.map byteToHex) ++ bs ">") ++ bs " ") ∧
    (¬(40 ∈ s ∨ 41 ∈ s ∨ 92 ∈ s) →
      serializeObject (PDFObject.string s) = (bs "(" ++ s ++ bs ")") ++ bs " ") := by
  constructor
  · intro h
    have h2 : (40 ∈ s ∨ 41 ∈ s) ∨ 92 ∈ s := by tauto
    simp [serializeObject, h2]
  · intro h
    have h2 : ¬((40 ∈ s ∨ 41 ∈ s) ∨ 92 ∈ s) := by tauto
    simp [serializeObject, h2]

/-- Witness for C8 at the payloads of scenario 3 of the spec: one string
containing a parenthesis and one free of the special bytes. -/
theorem c8_string_form_witness :
    serializeObject (PDFObject.string (bs "a(b)c")) =
      (bs "<" ++ joinBytes ((bs "a(b)c").map byteToHex) ++ bs ">") ++ bs " " ∧
    serializeObject (PDFObject.string (bs "hello")) =
      (bs "(" ++ bs "hello" ++ bs ")") ++ bs " " :=
  ⟨(c8_string_form (bs "a(b)c")).1 (by decide),
   (c8_string_form (bs "hello")).2 (by decide)⟩

/-- C10: getObjectCount counts slot 0, so a fresh writer reports 1; a
successful writeObject on an open writer and any reserveObject call
increment the count by one and return the object number the count had
before the call. -/
theorem c10_object_count (d : Device) (w : PDFStreamingDocumentWriter)
    (object : PDFObject) (generation : Int) (hOpen : w.isOpen = true) :
    (mkWriter d).getObjectCount = 1 ∧
    (w.writeObject object generation).1.getObjectCount = w.getObjectCount + 1 ∧
    (w.writeObject object generation).2.objectNumber = (w.getObjectCount : Int) ∧
    (w.reserveObject generation).1.getObjectCount = w.getObjectCount + 1 ∧
    (w.reserveObject generation).2.objectNumber = (w.getObjectCount : Int) := by
  refine ⟨rfl, ?_, ?_, ?_, ?_⟩
  · simp [PDFStreamingDocumentWriter.writeObject, hOpen,
      PDFStreamingDocumentWriter.writeObjectHeader,
      PDFStreamingDocumentWriter.writeObjectContent,
      PDFStreamingDocumentWriter.writeObjectFooter,
      PDFStreamingDocumentWriter.writeCRLF,
      PDFStreamingDocumentWriter.getObjectCount]
  · simp [PDFStreamingDocumentWriter.writeObject, hOpen,
      PDFStreamingDocumentWriter.getObjectCount]
  · simp [reserveObject_spec, PDFStreamingDocumentWriter.getObjectCount]
  · simp [reserveObject_spec, PDFStreamingDocumentWriter.getObjectCount]

/-- Witness for C10 on an opened fresh writer. -/
theorem c10_object_count_witness :
    (mkWriter {}).getObjectCount = 1 ∧
    let w := ((mkWriter {}).beginDocument (1, 7)).1
    (w.writeObject PDFObject.null 0).1.getObjectCount = w.getObjectCount + 1 ∧
    (w.writeObject PDFObject.null 0).2.objectNumber = (w.getObjectCount : Int) ∧
    (w.reserveObject 0).1.getObjectCount = w.getObjectCount + 1 ∧
    (w.reserveObject 0).2.objectNumber = (w.getObjectCount : Int) := by
  refine ⟨(c10_object_count {} ((mkWriter {}).beginDocument (1, 7)).1 PDFObject.null 0 (by decide)).1, ?_⟩
  exact (c10_object_count {} ((mkWriter {}).beginDocument (1, 7)).1 PDFObject.null 0 (by decide)).2

/-- C5 counterexample: reserveObject performs no open-state check, so on a
freshly constructed (Created, not Open) writer it still allocates a slot,
changes the writer state and returns a valid reference; addPage likewise
appends in any state.  This refutes the claim that the only-in-Open rule
governs reserveObject and addPage. -/
theorem c5_counterexample :
    (mkWriter {}).isOpen = false ∧
    ((mkWriter {}).reserveObject 0).2 = { objectNumber := 1, generation := 0 } ∧
    ({ objectNumber := 1, generation := 0 } : PDFObjectReference).isValid = true ∧
    ((mkWriter {}).reserveObject 0).1.getObjectCount = 2 ∧
    (mkWriter {}).getObjectCount = 1 ∧
    ((mkWriter {}).addPage { objectNumber := 1, generation := 0 }).pages =
      [{ objectNumber := 1, generation := 0 }] := by
  decide

/-- C5 amended: the writer starts Created, beginDocument opens it and
endDocument closes it; writeObject, writeReservedObject and endDocument
invoked outside the Open state fail without changing the writer or
emitting bytes, writeObject returning the default invalid reference; but
reserveObject and addPage perform no state check and mutate the writer in
any state. -/
theorem c5_state_machine_amended (w : PDFStreamingDocumentWriter)
    (object : PDFObject) (generation : Int) (reference : PDFObjectReference)
    (h : w.isOpen = false) :
    w.writeObject object generation = (w, {}) ∧
    ({} : PDFObjectReference).isValid = false ∧
    w.writeReservedObject reference object = (w, false) ∧
    w.endDocument = (w, .failure "Document is not open.") ∧
    (w.reserveObject generation).1.getObjectCount = w.getObjectCount + 1 ∧
    (w.addPage reference).pages = w.pages ++ [reference] := by
  refine ⟨writeObject_not_open w object generation h, by decide,
    writeReservedObject_not_open w reference object h,
    endDocument_not_open w h, ?_, rfl⟩
  simp [reserveObject_spec, PDFStreamingDocumentWriter.getObjectCount]

/-- Witness for C5 amended on a fresh (Created) writer. -/
theorem c5_state_machine_amended_witness :
    (mkWriter {}).writeObject PDFObject.null 0 = (mkWriter {}, ({} : PDFObjectReference)) ∧
    ({} : PDFObjectReference).isValid = false ∧
    (mkWriter {}).writeReservedObject ({} : PDFObjectReference) PDFObject.null = (mkWriter {}, false) ∧
    (mkWriter {}).endDocument = (mkWriter {}, .failure "Document is not open.") ∧
    ((mkWriter {}).reserveObject 0).1.getObjectCount = (mkWriter {}).getObjectCount + 1 ∧
    ((mkWriter {}).addPage ({} : PDFObjectReference)).pages =
      (mkWriter {}).pages ++ [({} : PDFObjectReference)] :=
  c5_state_machine_amended (mkWriter {}) PDFObject.null 0 ({} : PDFObjectReference) rfl

/-- C7 counterexample: with the sink already failed, the writer remains
Open and writeObject still returns a valid reference and issues five more
write attempts against the sink, so writer operations do not fail after a
sink failure and emission is still attempted. -/
theorem c7_counterexample :
    (((mkWriter { failed := true }).beginDocument (1, 7)).1).isOpen = true ∧
    (((mkWriter { failed := true }).beginDocument (1, 7)).1).device.failed = true ∧
    ((((mkWriter { failed := true }).beginDocument (1, 7)).1).writeObject PDFObject.null 0).2.isValid = true ∧
    ((((mkWriter { failed := true }).beginDocument (1, 7)).1).writeObject PDFObject.null 0).1.device.attempts =
      (((mkWriter { failed := true }).beginDocument (1, 7)).1).device.attempts + 5 := by
  decide

/-- C7 amended: a sink write failure is sticky in the sink itself — once
the sink has failed, every later write appends nothing and the sink stays
failed, so no further bytes reach the output — but the writer does not
consult the write results: its operations keep reporting success
(writeObject still returns the allocated reference) and keep issuing
write attempts against the failed sink. -/
theorem c7_sink_failure_amended (d : Device) (data : List Nat)
    (w : PDFStreamingDocumentWriter) (object : PDFObject) (generation : Int)
    (hd : d.failed = true) (hw : w.device.failed = true) (hOpen : w.isOpen = true) :
    (d.write data).failed = true ∧
    (d.write data).bytes = d.bytes ∧
    (w.writeObject object generation).1.device.bytes = w.device.bytes ∧
    (w.writeObject object generation).2 =
      { objectNumber := (w.getObjectCount : Int), generation := generation } ∧
    (w.writeObject object generation).1.device.attempts = w.device.attempts + 5 := by
  refine ⟨by simp [Device.write, hd], by simp [Device.write, hd], ?_, ?_, ?_⟩ <;>
    simp [PDFStreamingDocumentWriter.writeObject, hOpen,
      PDFStreamingDocumentWriter.writeObjectHeader,
      PDFStreamingDocumentWriter.writeObjectContent,
      PDFStreamingDocumentWriter.writeObjectFooter,
      PDFStreamingDocumentWriter.writeCRLF, Device.write, hw,
      PDFStreamingDocumentWriter.getObjectCount]

/-- Witness for C7 amended on an opened writer over a failed sink. -/
theorem c7_sink_failure_amended_witness :
    (({ failed := true } : Device).write (bs "x")).failed = true ∧
    (({ failed := true } : Device).write (bs "x")).bytes = ({ failed := true } : Device).bytes ∧
    ((((mkWriter { failed := true }).beginDocument (1, 7)).1).writeObject PDFObject.null 0).1.device.bytes =
      (((mkWriter { failed := true }).beginDocument (1, 7)).1).device.bytes ∧
    ((((mkWriter { failed := true }).beginDocument (1, 7)).1).writeObject PDFObject.null 0).2 =
      { objectNumber := ((((mkWriter { failed := true }).beginDocument (1, 7)).1).getObjectCount : Int),
        generation := 0 } ∧
    ((((mkWriter { failed := true }).beginDocument (1, 7)).1).writeObject PDFObject.null 0).1.device.attempts =
      (((mkWriter { failed := true }).beginDocument (1, 7)).1).device.attempts + 5 :=
  c7_sink_failure_amended { failed := true } (bs "x")
    (((mkWriter { failed := true }).beginDocument (1, 7)).1) PDFObject.null 0
    rfl (by decide) (by decide)

/-- C6: on an open writer, writeReservedObject returns true exactly when
the object number denotes an existing slot that is currently reserved and
not yet fulfilled; on success it records the current sink position as the
slot offset, clears the reserved flag and emits header, body and footer;
on failure it writes nothing and changes no slot. -/
theorem c6_writeReservedObject_contract (w : PDFStreamingDocumentWriter)
    (reference : PDFObjectReference) (object : PDFObject)
    (hOpen : w.isOpen = true) (hFail : w.device.failed = false) :
    ((w.writeReservedObject reference object).2 = true ↔
      (0 ≤ reference.objectNumber ∧
       reference.objectNumber < (w.objectOffsets.length : Int) ∧
       (w.objectOffsets.getD reference.objectNumber.toNat {}).isReserved = true ∧
       (w.objectOffsets.getD reference.objectNumber.toNat {}).offset = -1)) ∧
    ((w.writeReservedObject reference object).2 = false →
      (w.writeReservedObject reference object).1 = w) ∧
    ((w.writeReservedObject reference object).2 = true →
      (w.writeReservedObject reference object).1.objectOffsets =
        w.objectOffsets.set reference.objectNumber.toNat
          { w.objectOffsets.getD reference.objectNumber.toNat {} with
              offset := w.device.pos, isReserved := false } ∧
      (w.writeReservedObject reference object).1.device.bytes =
        w.device.bytes ++ headerPattern reference.objectNumber reference.generation ++
        serializeObject object ++ bs "endobj" ++ crlf) := by
  by_cases h1 : 0 ≤ reference.objectNumber
  · by_cases h2 : reference.objectNumber < (w.objectOffsets.length : Int)
    · by_cases h3 : (w.objectOffsets.getD reference.objectNumber.toNat {}).isReserved = true ∧
          (w.objectOffsets.getD reference.objectNumber.toNat {}).offset = -1
      · rw [writeReservedObject_success w reference object hOpen hFail h1 h2 h3.1 h3.2]
        refine ⟨iff_of_true rfl ⟨h1, h2, h3.1, h3.2⟩, by simp,
          fun _ => ⟨rfl, by simp [List.append_assoc]⟩⟩
      · rw [writeReservedObject_not_reserved w reference object h3]
        refine ⟨?_, fun _ => rfl, fun hcon => absurd hcon (by simp)⟩
        constructor
        · intro hc
          exact absurd hc (by simp)
        · rintro ⟨_, _, hr, ho⟩
          exact absurd ⟨hr, ho⟩ h3
    · rw [writeReservedObject_out_of_range w reference object (Or.inr (not_lt.mp h2))]
      refine ⟨?_, fun _ => rfl, fun hcon => absurd hcon (by simp)⟩
      constructor
      · intro hc
        exact absurd hc (by simp)
      · rintro ⟨_, hlt, _, _⟩
        exact absurd hlt h2
  · rw [writeReservedObject_out_of_range w reference object (Or.inl (not_le.mp h1))]
    refine ⟨?_, fun _ => rfl, fun hcon => absurd hcon (by simp)⟩
    constructor
    · intro hc
      exact absurd hc (by simp)
    · rintro ⟨hn, _, _, _⟩
      exact absurd hn h1

/-- Witness for C6: a successful fulfillment and a rejected second
fulfillment of the same slot on a concrete opened writer. -/
theorem c6_writeReservedObject_contract_witness :
    ((((mkWriter {}).beginDocument (1, 7)).1.reserveObject 0).1.writeReservedObject
        { objectNumber := 1, generation := 0 } PDFObject.null).2 = true ∧
    (((mkWriter {}).beginDocument (1, 7)).1.writeReservedObject
        { objectNumber := 1, generation := 0 } PDFObject.null).2 = false := by
  constructor
  · exact ((c6_writeReservedObject_contract
      (((mkWriter {}).beginDocument (1, 7)).1.reserveObject 0).1
      { objectNumber := 1, generation := 0 } PDFObject.null
      (by decide) (by decide)).1).mpr (by decide)
  · have hc := (c6_writeReservedObject_contract
      ((mkWriter {}).beginDocument (1, 7)).1
      { objectNumber := 1, generation := 0 } PDFObject.null
      (by decide) (by decide)).1
    by_contra hne
    have ht : ((((mkWriter {}).beginDocument (1, 7)).1).writeReservedObject
        { objectNumber := 1, generation := 0 } PDFObject.null).2 = true := by
      revert hne
      decide
    have := hc.mp ht
    revert this
    decide

/-- C9: on an open writer with slot idx reserved and unfulfilled,
writeReservedObject succeeds for an arbitrary caller generation, emits the
object header with the caller generation, and leaves the generation
recorded at reservation time in the slot, which is what the xref row later
uses. -/
theorem c9_reserved_generation (w : PDFStreamingDocumentWriter) (idx : Nat) (g2 : Int)
    (object : PDFObject) (hOpen : w.isOpen = true) (hFail : w.device.failed = false)
    (hlt : idx < w.objectOffsets.length)
    (hres : (w.objectOffsets.getD idx {}).isReserved = true)
    (hoff : (w.objectOffsets.getD idx {}).offset = -1) :
    (w.writeReservedObject { objectNumber := (idx : Int), generation := g2 } object).2 = true ∧
    (w.writeReservedObject { objectNumber := (idx : Int), generation := g2 } object).1.device.bytes =
      w.device.bytes ++ headerPattern (idx : Int) g2 ++ serializeObject object ++ bs "endobj" ++ crlf ∧
    ((w.writeReservedObject { objectNumber := (idx : Int), generation := g2 }
        object).1.objectOffsets.getD idx {}).generation =
      (w.objectOffsets.getD idx {}).generation := by
  have hsucc := writeReservedObject_success w { objectNumber := (idx : Int), generation := g2 }
    object hOpen hFail (Int.natCast_nonneg idx)
    (by show (idx : Int) < (w.objectOffsets.length : Int); exact_mod_cast hlt)
    (by simpa using hres) (by simpa using hoff)
  rw [hsucc]
  refine ⟨rfl, by simp [List.append_assoc], ?_⟩
  simp only [List.getD_eq_getElem?_getD, Int.toNat_natCast]
  rw [List.getElem?_set_self hlt]
  simp

/-- Witness for C9: slot 1 reserved at generation 3 and fulfilled with
caller generation 7. -/
theorem c9_reserved_generation_witness :
    ((((mkWriter {}).beginDocument (1, 7)).1.reserveObject 3).1.writeReservedObject
        { objectNumber := (1 : Nat), generation := 7 } PDFObject.null).2 = true ∧
    (((((mkWriter {}).beginDocument (1, 7)).1.reserveObject 3).1.writeReservedObject
        { objectNumber := (1 : Nat), generation := 7 }
        PDFObject.null).1.objectOffsets.getD 1 {}).generation =
      (((((mkWriter {}).beginDocument (1, 7)).1.reserveObject 3).1).objectOffsets.getD 1 {}).generation :=
  ⟨(c9_reserved_generation (((mkWriter {}).beginDocument (1, 7)).1.reserveObject 3).1 1 7
      PDFObject.null (by decide) (by decide) (by decide) (by decide) (by decide)).1,
   (c9_reserved_generation (((mkWriter {}).beginDocument (1, 7)).1.reserveObject 3).1 1 7
      PDFObject.null (by decide) (by decide) (by decide) (by decide) (by decide)).2.2⟩

theorem firstUnfulfilledGo_eq (es : List ObjectEntry) (start N : Nat)
    (h1 : start ≤ N) (hlt : N - start < es.length)
    (hbad : (es.getD (N - start) {}).isReserved = true ∧ (es.getD (N - start) {}).offset = -1)
    (hmin : ∀ j, start ≤ j → j < N →
      ¬((es.getD (j - start) {}).isReserved = true ∧ (es.getD (j - start) {}).offset = -1)) :
    firstUnfulfilledGo es start = some N := by
  induction es generalizing start with
  | nil => simp at hlt
  | cons e rest ih =>
    by_cases hs : N = start
    · subst hs
      simp only [Nat.sub_self, List.getD_cons_zero] at hbad
      unfold firstUnfulfilledGo
      rw [if_pos hbad]
    · have hstart_lt : start < N := lt_of_le_of_ne h1 fun he => hs he.symm
      have hne : ¬(e.isReserved = true ∧ e.offset = -1) := by
        have hm := hmin start (le_refl _) hstart_lt
        simpa using hm
      unfold firstUnfulfilledGo
      rw [if_neg hne]
      have hsub : N - start = (N - (start + 1)) + 1 := by omega
      apply ih (start + 1) hstart_lt
      · simp only [List.length_cons] at hlt
        omega
      · rw [hsub, List.getD_cons_succ] at hbad
        exact hbad
      · intro j hj1 hj2
        have hm := hmin j (Nat.le_of_succ_le hj1) hj2
        have hsubj : j - start = (j - (start + 1)) + 1 := by omega
        rw [hsubj, List.getD_cons_succ] at hm
        exact hm

/-- C3: endDocument called on an Open writer while slot N is the lowest
slot still reserved and unfulfilled returns the failure message naming N
and leaves the writer, its offset table and the sink untouched (the
returned writer is the argument itself), so no synthesized objects, xref
or trailer bytes are emitted. -/
theorem c3_unfulfilled_reservation (w : PDFStreamingDocumentWriter) (N : Nat)
    (hOpen : w.isOpen = true) (h1 : 1 ≤ N) (hlt : N < w.objectOffsets.length)
    (hbad : (w.objectOffsets.getD N {}).isReserved = true ∧
            (w.objectOffsets.getD N {}).offset = -1)
    (hmin : ∀ j, 1 ≤ j → j < N →
      ¬((w.objectOffsets.getD j {}).isReserved = true ∧
        (w.objectOffsets.getD j {}).offset = -1)) :
    w.endDocument = (w, .failure ("Reserved object " ++ Nat.repr N ++ " was never written.")) := by
  have hfu : firstUnfulfilled w.objectOffsets = some N := by
    rcases hes : w.objectOffsets with _ | ⟨e0, rest⟩
    · rw [hes] at hlt
      simp at hlt
    · rw [hes] at hlt hbad hmin
      unfold firstUnfulfilled
      apply firstUnfulfilledGo_eq rest 1 N h1
      · simp only [List.length_cons] at hlt
        omega
      · have hsub : N = (N - 1) + 1 := by omega
        rw [hsub, List.getD_cons_succ] at hbad
        exact hbad
      · intro j hj1 hj2
        have hm := hmin j hj1 hj2
        have hsubj : j = (j - 1) + 1 := by omega
        rw [hsubj, List.getD_cons_succ] at hm
        convert hm using 3
  exact endDocument_unfulfilled w N hOpen hfu

/-- Witness for C3: a fresh opened writer with one unfulfilled reservation
at slot 1. -/
theorem c3_unfulfilled_reservation_witness :
    ((((mkWriter {}).beginDocument (1, 7)).1.reserveObject 0).1).endDocument =
      ((((mkWriter {}).beginDocument (1, 7)).1.reserveObject 0).1,
       .failure ("Reserved object " ++ Nat.repr 1 ++ " was never written.")) :=
  c3_unfulfilled_reservation (((mkWriter {}).beginDocument (1, 7)).1.reserveObject 0).1 1
    (by decide) (by decide) (by decide) (by decide)
    (fun j hj1 hj2 => absurd (lt_of_le_of_lt hj1 hj2) (lt_irrefl 1))

/-
Digit-length bounds and the xref row format (claim C4).
-/

theorem natToDecimalGo_length (fuel : Nat) : ∀ (n k : Nat) (acc : List Nat),
    1 ≤ k → n < 10 ^ k → n < fuel →
    (natToDecimalGo fuel n acc).length ≤ k + acc.length := by
  induction fuel with
  | zero => intro n k acc _ _ hfuel; omega
  | succ fuel ih =>
    intro n k acc hk hn hfuel
    unfold natToDecimalGo
    by_cases h10 : n < 10
    · rw [if_pos h10]
      simp only [List.length_cons]
      omega
    · rw [if_neg h10]
      have hk2 : 2 ≤ k := by
        by_contra hc
        have hk1 : k = 1 := by omega
        subst hk1
        simp only [pow_one] at hn
        omega
      have hpow : 10 ^ k = 10 ^ (k - 1) * 10 := by
        conv_lhs => rw [show k = (k - 1) + 1 by omega]
        rw [pow_succ]
      have hdiv : n / 10 < 10 ^ (k - 1) := by
        apply Nat.div_lt_of_lt_mul
        omega
      have hfuel2 : n / 10 < fuel := by
        have := Nat.div_lt_self (show 0 < n by omega) (show 1 < 10 by omega)
        omega
      have hrec := ih (n / 10) (k - 1) ((48 + n % 10) :: acc) (by omega) hdiv hfuel2
      simp only [List.length_cons] at hrec
      omega

theorem natToDecimal_length_le (n k : Nat) (hk : 1 ≤ k) (hn : n < 10 ^ k) :
    (natToDecimal n).length ≤ k := by
  have := natToDecimalGo_length (n + 1) n k [] hk hn (Nat.lt_succ_self n)
  simpa using this

theorem intToDecimal_length_le (v : Int) (k : Nat) (hk : 1 ≤ k)
    (h0 : 0 ≤ v) (hv : v < ((10 ^ k : Nat) : Int)) :
    (intToDecimal v).length ≤ k := by
  unfold intToDecimal
  rw [if_neg (not_lt.mpr h0)]
  exact natToDecimal_length_le v.natAbs k hk (by omega)

theorem rightJustified_eq_pad (s : List Nat) (width : Nat) (h : s.length ≤ width) :
    rightJustified s width 48 = List.replicate (width - s.length) 48 ++ s := by
  unfold rightJustified
  by_cases hlt : s.length < width
  · rw [if_pos hlt]
  · rw [if_neg hlt]
    have he : s.length = width := le_antisymm h (not_lt.mp hlt)
    rw [List.take_of_length_le h, he, Nat.sub_self]
    simp

/-- The zero-padded fixed-width decimal field of the specification: the
decimal digits preceded by as many zero characters as needed to reach the
field width (true padding, no truncation). -/
def zeroPadDecimal (width : Nat) (value : Int) : List Nat :=
  List.replicate (width - (intToDecimal value).length) 48 ++ intToDecimal value

/-- One xref row as the specification words it: ten-digit zero-padded
offset (0 for the sentinel), space, five-digit zero-padded generation,
space, the letter f for slot 0 or unpopulated slots and n otherwise,
then CRLF. -/
def xrefRowSpec (i : Nat) (e : ObjectEntry) : List Nat :=
  zeroPadDecimal 10 (if e.offset = -1 then 0 else e.offset) ++ bs " " ++
  zeroPadDecimal 5 e.generation ++ bs " " ++
  (if i = 0 ∨ e.offset = -1 then bs "f" else bs "n") ++ crlf

/-- All specification rows from slot index i on. -/
def xrefRowsSpecGo : List ObjectEntry → Nat → List Nat
| [], _ => []
| e :: rest, i => xrefRowSpec i e ++ xrefRowsSpecGo rest (i + 1)

theorem xrefRow_eq_spec (i : Nat) (e : ObjectEntry)
    (hoffl : -1 ≤ e.offset) (hoffu : e.offset < 10000000000)
    (hgl : 0 ≤ e.generation) (hgu : e.generation < 100000) :
    xrefRow i e = xrefRowSpec i e := by
  have hofflen : (intToDecimal (if e.offset = -1 then 0 else e.offset)).length ≤ 10 := by
    apply intToDecimal_length_le _ 10 (by omega)
    · split <;> omega
    · split
      · decide
      · show e.offset < ((10000000000 : Nat) : Int)
        exact_mod_cast hoffu
  have hgenlen : (intToDecimal e.generation).length ≤ 5 := by
    apply intToDecimal_length_le _ 5 (by omega) hgl
    show e.generation < ((100000 : Nat) : Int)
    exact_mod_cast hgu
  simp only [xrefRow, xrefRowSpec, zeroPadDecimal, xrefEntryFlag,
    rightJustified_eq_pad _ _ hofflen, rightJustified_eq_pad _ _ hgenlen,
    List.append_assoc]

theorem xrefRowSpec_length (i : Nat) (e : ObjectEntry)
    (hoffl : -1 ≤ e.offset) (hoffu : e.offset < 10000000000)
    (hgl : 0 ≤ e.generation) (hgu : e.generation < 100000) :
    (xrefRowSpec i e).length = 20 := by
  have hofflen : (intToDecimal (if e.offset = -1 then 0 else e.offset)).length ≤ 10 := by
    apply intToDecimal_length_le _ 10 (by omega)
    · split <;> omega
    · split
      · decide
      · show e.offset < ((10000000000 : Nat) : Int)
        exact_mod_cast hoffu
  have hgenlen : (intToDecimal e.generation).length ≤ 5 := by
    apply intToDecimal_length_le _ 5 (by omega) hgl
    show e.generation < ((100000 : Nat) : Int)
    exact_mod_cast hgu
  have hflag : (if i = 0 ∨ e.offset = -1 then bs "f" else bs "n").length = 1 := by
    split <;> decide
  unfold xrefRowSpec zeroPadDecimal
  simp only [List.length_append, List.length_replicate, hflag]
  have h1 : (bs " ").length = 1 := by decide
  have h2 : crlf.length = 2 := by decide
  omega

theorem xrefRowsGo_eq_spec (entries : List ObjectEntry) : ∀ (start : Nat),
    (∀ e ∈ entries, -1 ≤ e.offset ∧ e.offset < 10000000000 ∧
      0 ≤ e.generation ∧ e.generation < 100000) →
    xrefRowsGo entries start = xrefRowsSpecGo entries start ∧
    (xrefRowsSpecGo entries start).length = 20 * entries.length := by
  induction entries with
  | nil => intro start _; exact ⟨rfl, rfl⟩
  | cons e rest ih =>
    intro start hall
    have he := hall e (List.mem_cons_self e rest)
    have hrest := ih (start + 1) (fun x hx => hall x (List.mem_cons_of_mem e hx))
    unfold xrefRowsGo xrefRowsSpecGo
    refine ⟨?_, ?_⟩
    · rw [xrefRow_eq_spec start e he.1 he.2.1 he.2.2.1 he.2.2.2, hrest.1]
    · simp only [List.length_append, List.length_cons, hrest.2,
        xrefRowSpec_length start e he.1 he.2.1 he.2.2.1 he.2.2.2]
      ring

/-- C4: in the file produced by a successful endDocument (catalog already
set), the cross-reference section is the literal xref line, the section
header naming 0 and the slot count K including slot 0, then one row per
slot in the specification format, ten-digit zero-padded offset with the
sentinel mapped to 0, space, five-digit zero-padded generation, space, f
for slot 0 or unpopulated slots and n otherwise, CRLF, each row exactly
20 bytes. -/
theorem c4_xref_format (w : PDFStreamingDocumentWriter)
    (hOpen : w.isOpen = true) (hNone : firstUnfulfilled w.objectOffsets = none)
    (hCat : w.catalogReference.isValid = true) (hFail : w.device.failed = false)
    (hRange : ∀ e ∈ w.objectOffsets, -1 ≤ e.offset ∧ e.offset < 10000000000 ∧
      0 ≤ e.generation ∧ e.generation < 100000) :
    (w.endDocument).2 = PDFOperationResult.success ∧
    (w.endDocument).1.device.bytes =
      w.device.bytes ++ bs "xref" ++ crlf ++ (bs "0 " ++ natToDecimal w.objectOffsets.length) ++
      crlf ++ xrefRowsSpecGo w.objectOffsets 0 ++
      (bs "trailer" ++ crlf ++ serializeObject (trailerDictionary w) ++ crlf ++
       bs "startxref" ++ crlf ++ intToDecimal w.device.pos ++ crlf ++ bs "%%EOF") ∧
    (xrefRowsSpecGo w.objectOffsets 0).length = 20 * w.objectOffsets.length := by
  have hsyn : w.synthesizeCatalogStep = w := by
    unfold PDFStreamingDocumentWriter.synthesizeCatalogStep
    simp [hCat]
  have hrows := xrefRowsGo_eq_spec w.objectOffsets 0 hRange
  have hend := endDocument_success w hOpen hNone (by rw [hsyn]; exact hFail)
  rw [hend]
  refine ⟨rfl, ?_, hrows.2⟩
  simp only [hsyn, finalizeTail, hrows.1, List.append_assoc]

/-- Witness for C4 on a concrete writer holding one written object and an
explicit catalog reference. -/
theorem c4_xref_format_witness :
    let w := ((((mkWriter {}).beginDocument (1, 7)).1.writeObject PDFObject.null
      0).1.setCatalogReference { objectNumber := 1, generation := 0 })
    (w.endDocument).2 = PDFOperationResult.success ∧
    (w.endDocument).1.device.bytes =
      w.device.bytes ++ bs "xref" ++ crlf ++ (bs "0 " ++ natToDecimal w.objectOffsets.length) ++
      crlf ++ xrefRowsSpecGo w.objectOffsets 0 ++
      (bs "trailer" ++ crlf ++ serializeObject (trailerDictionary w) ++ crlf ++
       bs "startxref" ++ crlf ++ intToDecimal w.device.pos ++ crlf ++ bs "%%EOF") ∧
    (xrefRowsSpecGo w.objectOffsets 0).length = 20 * w.objectOffsets.length :=
  c4_xref_format
    ((((mkWriter {}).beginDocument (1, 7)).1.writeObject PDFObject.null
      0).1.setCatalogReference { objectNumber := 1, generation := 0 })
    (by decide) (by decide) (by decide) (by decide) (by decide)

/-
The merger passes (claim C2).
-/

/-- Number of non-null slots of a source slot list. -/
def countNonNull : List SourceEntry → Nat
| [] => 0
| e :: rest => (if e.object.isNull then 0 else 1) + countNonNull rest

/-- The entry a reservation at generation 0 appends. -/
def reservedEntryZero : ObjectEntry := { offset := -1, generation := 0, isReserved := true }

/-- The reference mapping the specification describes: walking the source
slots from index i with the next free destination number base, every
non-null slot (i, source generation) maps to destination (base, 0) and
null slots are skipped without an entry. -/
def specMappingGo (base : Nat) : List SourceEntry → Nat → ReferenceMapping
| [], _ => []
| e :: rest, i =>
  if e.object.isNull then specMappingGo base rest (i + 1)
  else ({ objectNumber := (i : Int), generation := e.generation },
        ({ objectNumber := (base : Int), generation := 0 } : PDFObjectReference)) ::
       specMappingGo (base + 1) rest (i + 1)

/-- The bytes the emit pass appends as the specification describes them:
for every non-null slot in order, a header at the allocated number and
generation 0, the serialized object with its references rewritten through
the mapping, and the endobj footer. -/
def emittedBytesSpecGo (base : Nat) : List SourceEntry → Nat → ReferenceMapping → List Nat
| [], _, _ => []
| e :: rest, i, mapping =>
  if e.object.isNull then emittedBytesSpecGo base rest (i + 1) mapping
  else headerPattern (base : Int) 0 ++ serializeObject (replaceReferences e.object mapping) ++
       bs "endobj" ++ crlf ++ emittedBytesSpecGo (base + 1) rest (i + 1) mapping

theorem reservePass_spec (es : List SourceEntry) :
    ∀ (w : PDFStreamingDocumentWriter) (i : Nat) (m0 : ReferenceMapping),
    reservePass w es i m0 =
      ({ w with objectOffsets := w.objectOffsets ++
          List.replicate (countNonNull es) reservedEntryZero },
       m0 ++ specMappingGo w.objectOffsets.length es i) := by
  induction es with
  | nil =>
    intro w i m0
    simp [reservePass, countNonNull, specMappingGo]
  | cons e rest ih =>
    intro w i m0
    unfold reservePass countNonNull specMappingGo
    by_cases hnull : e.object.isNull = true
    · simp only [hnull, if_true, ih]
      simp
    · simp only [hnull, Bool.false_eq_true, if_false, ih, reserveObject_spec]
      have h1n : 1 + countNonNull rest = countNonNull rest + 1 := Nat.add_comm 1 _
      simp [h1n, List.replicate_succ, List.append_assoc, reservedEntryZero]

theorem lookupRef_none (m : ReferenceMapping) (r : PDFObjectReference)
    (h : ∀ p ∈ m, p.1 ≠ r) : lookupRef m r = none := by
  unfold lookupRef
  rw [List.find?_eq_none.mpr]
  · rfl
  · intro p hp
    simpa using h p hp

theorem lookupRef_append_of_none (m1 m2 : ReferenceMapping) (r : PDFObjectReference)
    (h : lookupRef m1 r = none) : lookupRef (m1 ++ m2) r = lookupRef m2 r := by
  unfold lookupRef at h ⊢
  rw [List.find?_append]
  cases hf : List.find? (fun p => decide (p.1 = r)) m1 with
  | none => simp [hf]
  | some p =>
    rw [hf] at h
    simp at h

theorem lookupRef_cons_self (m : ReferenceMapping) (r r2 : PDFObjectReference) :
    lookupRef ((r, r2) :: m) r = some r2 := by
  unfold lookupRef
  rw [List.find?_cons_of_pos _ (by simp)]
  rfl

theorem pagePass_spec (pages : List PDFObjectReference) :
    ∀ (w : PDFStreamingDocumentWriter) (mapping : ReferenceMapping),
    pagePass w pages mapping =
      ({ w with pages := w.pages ++ pages.filterMap (lookupRef mapping) },
       (pages.filterMap (lookupRef mapping)).length) := by
  induction pages with
  | nil =>
    intro w mapping
    simp [pagePass]
  | cons p rest ih =>
    intro w mapping
    unfold pagePass
    cases hl : lookupRef mapping p with
    | some r =>
      simp only [hl, ih, addPage_spec, List.filterMap_cons]
      simp [List.append_assoc]
    | none =>
      simp only [hl, ih, List.filterMap_cons]

theorem set_append_boundary {α : Type} (l1 : List α) (x y : α) (t : List α) :
    (l1 ++ x :: t).set l1.length y = l1 ++ y :: t := by
  rw [List.set_append]
  simp

theorem countNonNull_cons (e : SourceEntry) (rest : List SourceEntry) :
    countNonNull (e :: rest) = (if e.object.isNull then 0 else 1) + countNonNull rest := rfl

theorem specMappingGo_cons (base : Nat) (e : SourceEntry) (rest : List SourceEntry) (i : Nat) :
    specMappingGo base (e :: rest) i =
      if e.object.isNull then specMappingGo base rest (i + 1)
      else ({ objectNumber := (i : Int), generation := e.generation },
            ({ objectNumber := (base : Int), generation := 0 } : PDFObjectReference)) ::
           specMappingGo (base + 1) rest (i + 1) := rfl

theorem emittedBytesSpecGo_cons (base : Nat) (e : SourceEntry) (rest : List SourceEntry)
    (i : Nat) (mapping : ReferenceMapping) :
    emittedBytesSpecGo base (e :: rest) i mapping =
      if e.object.isNull then emittedBytesSpecGo base rest (i + 1) mapping
      else headerPattern (base : Int) 0 ++
        serializeObject (replaceReferences e.object mapping) ++
        bs "endobj" ++ crlf ++ emittedBytesSpecGo (base + 1) rest (i + 1) mapping := rfl

theorem emitPass_cons (w : PDFStreamingDocumentWriter) (e : SourceEntry)
    (rest : List SourceEntry) (i : Nat) (mapping : ReferenceMapping) :
    emitPass w (e :: rest) i mapping =
      if e.object.isNull then emitPass w rest (i + 1) mapping
      else emitPass (w.writeReservedObject
        ((lookupRef mapping { objectNumber := (i : Int), generation := e.generation }).getD {})
        (replaceReferences e.object mapping)).1 rest (i + 1) mapping := rfl

theorem emitPass_spec (es : List SourceEntry) :
    ∀ (i : Nat) (w : PDFStreamingDocumentWriter) (base : List ObjectEntry)
      (mPre mapping : ReferenceMapping),
    w.isOpen = true → w.device.failed = false →
    w.objectOffsets = base ++ List.replicate (countNonNull es) reservedEntryZero →
    mapping = mPre ++ specMappingGo base.length es i →
    (∀ p ∈ mPre, p.1.objectNumber < (i : Int)) →
    (emitPass w es i mapping).device.bytes =
      w.device.bytes ++ emittedBytesSpecGo base.length es i mapping ∧
    (emitPass w es i mapping).device.failed = false ∧
    (emitPass w es i mapping).isOpen = true ∧
    (emitPass w es i mapping).pages = w.pages ∧
    (emitPass w es i mapping).catalogReference = w.catalogReference ∧
    (emitPass w es i mapping).infoReference = w.infoReference ∧
    ∃ newList, (emitPass w es i mapping).objectOffsets = base ++ newList ∧
      newList.length = countNonNull es ∧
      ∀ e2 ∈ newList, 0 ≤ e2.offset ∧ e2.generation = 0 ∧ e2.isReserved = false := by
  induction es with
  | nil =>
    intro i w base mPre mapping hOpen hFail hoff hmap hkeys
    refine ⟨by simp [emitPass, emittedBytesSpecGo], hFail, hOpen, rfl, rfl, rfl,
      [], ?_, rfl, by simp⟩
    simpa [countNonNull] using hoff
  | cons e rest ih =>
    intro i w base mPre mapping hOpen hFail hoff hmap hkeys
    by_cases hnull : e.object.isNull = true
    · have hkeys2 : ∀ p ∈ mPre, p.1.objectNumber < ((i + 1 : Nat) : Int) := by
        intro p hp
        have h1 := hkeys p hp
        have h2 : ((i : Nat) : Int) < ((i + 1 : Nat) : Int) := by exact_mod_cast Nat.lt_succ_self i
        exact lt_trans h1 h2
      have hmap2 : mapping = mPre ++ specMappingGo base.length rest (i + 1) := by
        rw [hmap, specMappingGo_cons, if_pos hnull]
      have hoff2 : w.objectOffsets = base ++ List.replicate (countNonNull rest) reservedEntryZero := by
        rw [hoff, countNonNull_cons, if_pos hnull, Nat.zero_add]
      have hrec := ih (i + 1) w base mPre mapping hOpen hFail hoff2 hmap2 hkeys2
      rw [emitPass_cons, if_pos hnull, emittedBytesSpecGo_cons, if_pos hnull,
        countNonNull_cons, if_pos hnull, Nat.zero_add]
      exact hrec
    · have hcount : countNonNull (e :: rest) = countNonNull rest + 1 := by
        rw [countNonNull_cons, if_neg hnull]
        exact Nat.add_comm 1 _
      have hoff1 : w.objectOffsets =
          base ++ reservedEntryZero :: List.replicate (countNonNull rest) reservedEntryZero := by
        rw [hoff, hcount, List.replicate_succ]
      have hspec : specMappingGo base.length (e :: rest) i =
          (({ objectNumber := (i : Int), generation := e.generation } : PDFObjectReference),
           ({ objectNumber := (base.length : Int), generation := 0 } : PDFObjectReference)) ::
          specMappingGo (base.length + 1) rest (i + 1) := by
        rw [specMappingGo_cons, if_neg hnull]
      have hlook : lookupRef mapping { objectNumber := (i : Int), generation := e.generation } =
          some { objectNumber := (base.length : Int), generation := 0 } := by
        rw [hmap, hspec, lookupRef_append_of_none]
        · exact lookupRef_cons_self _ _ _
        · apply lookupRef_none
          intro p hp hcontra
          have hki := hkeys p hp
          rw [hcontra] at hki
          exact absurd hki (lt_irrefl _)
      have hgetD : w.objectOffsets.getD
          (({ objectNumber := (base.length : Int), generation := 0 } :
            PDFObjectReference)).objectNumber.toNat {} = reservedEntryZero := by
        show w.objectOffsets.getD ((base.length : Int)).toNat {} = reservedEntryZero
        rw [hoff1]
        simp only [Int.toNat_natCast, List.getD_eq_getElem?_getD]
        rw [List.getElem?_append_right (le_refl base.length)]
        simp
      have hsucc := writeReservedObject_success w
        { objectNumber := (base.length : Int), generation := 0 }
        (replaceReferences e.object mapping) hOpen hFail
        (Int.natCast_nonneg base.length)
        (by show ((base.length : Nat) : Int) < ((w.objectOffsets.length : Nat) : Int)
            rw [hoff1]
            have hb : base.length < (base ++ reservedEntryZero ::
                List.replicate (countNonNull rest) reservedEntryZero).length := by
              simp
            exact_mod_cast hb)
        (by rw [hgetD]; rfl) (by rw [hgetD]; rfl)
      have hoffW2 : (w.objectOffsets.set
            (({ objectNumber := (base.length : Int), generation := 0 } :
              PDFObjectReference)).objectNumber.toNat
            { w.objectOffsets.getD
                (({ objectNumber := (base.length : Int), generation := 0 } :
                  PDFObjectReference)).objectNumber.toNat {} with
                offset := w.device.pos, isReserved := false }) =
          (base ++ [{ offset := w.device.pos, generation := 0, isReserved := false }]) ++
            List.replicate (countNonNull rest) reservedEntryZero := by
        rw [hgetD]
        show (w.objectOffsets.set ((base.length : Int)).toNat _) = _
        rw [hoff1]
        simp only [Int.toNat_natCast]
        rw [set_append_boundary]
        simp [reservedEntryZero, List.append_assoc]
      have hkeysW2 : ∀ p ∈ mPre ++
          [(({ objectNumber := (i : Int), generation := e.generation } : PDFObjectReference),
            ({ objectNumber := (base.length : Int), generation := 0 } : PDFObjectReference))],
          p.1.objectNumber < ((i + 1 : Nat) : Int) := by
        intro p hp
        rcases List.mem_append.mp hp with hp1 | hp2
        · have h1 := hkeys p hp1
          have h2 : ((i : Nat) : Int) < ((i + 1 : Nat) : Int) := by
            exact_mod_cast Nat.lt_succ_self i
          exact lt_trans h1 h2
        · have hp3 : p = (({ objectNumber := (i : Int), generation := e.generation } :
              PDFObjectReference),
            ({ objectNumber := (base.length : Int), generation := 0 } :
              PDFObjectReference)) := by
            simpa using hp2
          rw [hp3]
          show ((i : Nat) : Int) < ((i + 1 : Nat) : Int)
          exact_mod_cast Nat.lt_succ_self i
      have hmapW2 : mapping = (mPre ++
          [(({ objectNumber := (i : Int), generation := e.generation } : PDFObjectReference),
            ({ objectNumber := (base.length : Int), generation := 0 } : PDFObjectReference))]) ++
          specMappingGo ((base ++
            [({ offset := w.device.pos, generation := 0, isReserved := false } :
              ObjectEntry)]).length) rest (i + 1) := by
        rw [hmap, hspec]
        simp [List.append_assoc]
      have hrec := ih (i + 1)
        ((w.writeReservedObject { objectNumber := (base.length : Int), generation := 0 }
          (replaceReferences e.object mapping)).1)
        (base ++ [{ offset := w.device.pos, generation := 0, isReserved := false }])
        (mPre ++
          [(({ objectNumber := (i : Int), generation := e.generation } : PDFObjectReference),
            ({ objectNumber := (base.length : Int), generation := 0 } : PDFObjectReference))])
        mapping
        (by rw [hsucc]; exact hOpen)
        (by rw [hsucc]; exact hFail)
        (by rw [hsucc]; exact hoffW2)
        hmapW2 hkeysW2
      rw [emitPass_cons, if_neg hnull, emittedBytesSpecGo_cons, if_neg hnull, hlook]
      simp only [Option.getD_some]
      obtain ⟨hbytes, hfailed, hopen2, hpages, hcatalog, hinfo, newList, hnl1, hnl2, hnl3⟩ := hrec
      refine ⟨?_, hfailed, hopen2, ?_, ?_, ?_, ?_⟩
      · rw [hbytes, hsucc]
        simp [List.append_assoc]
      · rw [hpages, hsucc]
      · rw [hcatalog, hsucc]
      · rw [hinfo, hsucc]
      · refine ⟨{ offset := w.device.pos, generation := 0, isReserved := false } :: newList, ?_, ?_, ?_⟩
        · rw [hnl1]
          simp [List.append_assoc]
        · simp only [List.length_cons, hnl2, hcount]
        · intro e2 he2
          rcases List.mem_cons.mp he2 with he2 | he2
          · rw [he2]
            refine ⟨?_, rfl, rfl⟩
            show (0 : Int) ≤ w.device.pos
            unfold Device.pos
            exact Int.natCast_nonneg _
          · exact hnl3 e2 he2

/-- C2: addDocument on an open merger walks the source slots from index 1
in ascending order and reserves one generation-0 slot per non-null source
slot, recording the mapping from (slot index, source generation) to the
allocated reference and skipping null slots; the emit pass then fulfills
each reservation in the same order, emitting every transplanted object at
generation 0 with its references rewritten through the mapping; finally
each source page whose original reference is in the mapping is appended
via addPage in source page order. -/
theorem c2_addDocument_spec (m : PDFStreamingMerger) (document : SourceDocument)
    (hOpen : m.writer.isOpen = true) (hFail : m.writer.device.failed = false) :
    (m.addDocument document).2 = true ∧
    (m.addDocument document).1.totalDocuments = m.totalDocuments + 1 ∧
    (m.addDocument document).1.writer.objectOffsets.length =
      m.writer.objectOffsets.length + countNonNull (document.objects.drop 1) ∧
    (m.addDocument document).1.writer.objectOffsets.take m.writer.objectOffsets.length =
      m.writer.objectOffsets ∧
    (∀ e2 ∈ (m.addDocument document).1.writer.objectOffsets.drop m.writer.objectOffsets.length,
      0 ≤ e2.offset ∧ e2.generation = 0 ∧ e2.isReserved = false) ∧
    (m.addDocument document).1.writer.device.bytes =
      m.writer.device.bytes ++
        emittedBytesSpecGo m.writer.objectOffsets.length (document.objects.drop 1) 1
          (specMappingGo m.writer.objectOffsets.length (document.objects.drop 1) 1) ∧
    (m.addDocument document).1.writer.pages =
      m.writer.pages ++ document.pages.filterMap
        (lookupRef (specMappingGo m.writer.objectOffsets.length (document.objects.drop 1) 1)) ∧
    (m.addDocument document).1.totalPages =
      m.totalPages + (document.pages.filterMap
        (lookupRef (specMappingGo m.writer.objectOffsets.length
          (document.objects.drop 1) 1))).length := by
  have hemit := emitPass_spec (document.objects.drop 1) 1
    ({ m.writer with objectOffsets := m.writer.objectOffsets ++
        List.replicate (countNonNull (document.objects.drop 1)) reservedEntryZero })
    m.writer.objectOffsets []
    (specMappingGo m.writer.objectOffsets.length (document.objects.drop 1) 1)
    hOpen hFail rfl (List.nil_append _).symm (by intro p hp; simp at hp)
  obtain ⟨hbytes, _, _, hpages, _, _, newList, hnl1, hnl2, hnl3⟩ := hemit
  simp only [hOpen] at hbytes hpages hnl1
  unfold PDFStreamingMerger.addDocument
  simp only [hOpen, Bool.not_true, Bool.false_eq_true, if_false,
    reservePass_spec, List.nil_append, pagePass_spec]
  refine ⟨trivial, trivial, ?_, ?_, ?_, ?_, ?_, trivial⟩
  · rw [hnl1]
    simp [hnl2]
  · rw [hnl1]
    exact List.take_left _ _
  · rw [hnl1, List.drop_left]
    exact hnl3
  · exact hbytes
  · rw [hpages]

/-- Witness for C2: a merger over a freshly opened writer ingesting a
two-slot document with one non-null object and one page. -/
theorem c2_addDocument_spec_witness :
    (({ writer := ((mkWriter {}).beginDocument (1, 7)).1 } : PDFStreamingMerger).addDocument
        { objects := [{}, { object := PDFObject.int 5, generation := 2 }],
          pages := [{ objectNumber := 1, generation := 2 }] }).2 = true ∧
    (({ writer := ((mkWriter {}).beginDocument (1, 7)).1 } : PDFStreamingMerger).addDocument
        { objects := [{}, { object := PDFObject.int 5, generation := 2 }],
          pages := [{ objectNumber := 1, generation := 2 }] }).1.totalDocuments =
      ({ writer := ((mkWriter {}).beginDocument (1, 7)).1 } : PDFStreamingMerger).totalDocuments + 1 :=
  ⟨(c2_addDocument_spec { writer := ((mkWriter {}).beginDocument (1, 7)).1 }
      { objects := [{}, { object := PDFObject.int 5, generation := 2 }],
        pages := [{ objectNumber := 1, generation := 2 }] } (by decide) (by decide)).1,
   (c2_addDocument_spec { writer := ((mkWriter {}).beginDocument (1, 7)).1 }
      { objects := [{}, { object := PDFObject.int 5, generation := 2 }],
        pages := [{ objectNumber := 1, generation := 2 }] } (by decide) (by decide)).2.1⟩

/-
Traces of writer operations and the header-offset invariant (claim C1).
-/

/-- One writer operation of a trace. -/
inductive WriterCmd where
| writeObjectCmd (object : PDFObject) (generation : Int)
| reserveObjectCmd (generation : Int)
| writeReservedObjectCmd (reference : PDFObjectReference) (object : PDFObject)
| addPageCmd (reference : PDFObjectReference)
| setCatalogReferenceCmd (reference : PDFObjectReference)
| setInfoReferenceCmd (reference : PDFObjectReference)

/-- Run one operation, dropping its return value. -/
def runCmd (w : PDFStreamingDocumentWriter) : WriterCmd → PDFStreamingDocumentWriter
| .writeObjectCmd object generation => (w.writeObject object generation).1
| .reserveObjectCmd generation => (w.reserveObject generation).1
| .writeReservedObjectCmd reference object => (w.writeReservedObject reference object).1
| .addPageCmd reference => w.addPage reference
| .setCatalogReferenceCmd reference => w.setCatalogReference reference
| .setInfoReferenceCmd reference => w.setInfoReference reference

/-- Run a list of operations in order. -/
def runCmds (w : PDFStreamingDocumentWriter) : List WriterCmd → PDFStreamingDocumentWriter
| [] => w
| c :: cs => runCmds (runCmd w c) cs

/-- A command is generation-consistent in a state when, if it is a
writeReservedObject call that succeeds there, the generation it passes is
the one recorded for the slot at reservation time. -/
def genConsistent (w : PDFStreamingDocumentWriter) : WriterCmd → Bool
| .writeReservedObjectCmd reference object =>
  !(w.writeReservedObject reference object).2 ||
  decide (reference.generation =
    (w.objectOffsets.getD reference.objectNumber.toNat {}).generation)
| _ => true

/-- Every command of the trace is generation-consistent in the state where
it runs. -/
def allGenConsistent (w : PDFStreamingDocumentWriter) : List WriterCmd → Bool
| [] => true
| c :: cs => genConsistent w c && allGenConsistent (runCmd w c) cs

/-- The header-offset invariant: every populated slot records a
nonnegative offset at which the sink holds exactly the header line made
of the slot number, the slot generation and the obj keyword with CRLF. -/
def HeaderInvariant (w : PDFStreamingDocumentWriter) : Prop :=
  ∀ i : Nat, 1 ≤ i → i < w.objectOffsets.length →
    (w.objectOffsets.getD i {}).offset ≠ -1 →
    0 ≤ (w.objectOffsets.getD i {}).offset ∧
    startsWithAt w.device.bytes ((w.objectOffsets.getD i {}).offset.toNat)
      (headerPattern (i : Int) ((w.objectOffsets.getD i {}).generation))

theorem headerInvariant_extend (w w2 : PDFStreamingDocumentWriter)
    (hinv : HeaderInvariant w)
    (hoff : w2.objectOffsets = w.objectOffsets)
    (hbytes : ∃ t, w2.device.bytes = w.device.bytes ++ t) :
    HeaderInvariant w2 := by
  intro i h1 h2 h3
  rw [hoff] at h2 h3 ⊢
  obtain ⟨t, ht⟩ := hbytes
  have hold := hinv i h1 h2 h3
  rw [ht]
  exact ⟨hold.1, startsWithAt_append _ _ _ _ hold.2⟩

theorem startsWithAt_of_eq_append (bytes a pat t : List Nat)
    (h : bytes = a ++ (pat ++ t)) : startsWithAt bytes a.length pat := by
  rw [h]
  exact startsWithAt_first a pat t

theorem headerInvariant_reserveObject (w : PDFStreamingDocumentWriter) (generation : Int)
    (hinv : HeaderInvariant w) : HeaderInvariant (w.reserveObject generation).1 := by
  rw [reserveObject_spec]
  intro i h1 h2 h3
  simp only [List.length_append, List.length_cons, List.length_nil] at h2
  by_cases hi : i < w.objectOffsets.length
  · have hgd : ((w.objectOffsets ++
        [({ offset := -1, generation := generation, isReserved := true } : ObjectEntry)]).getD i {}) =
        w.objectOffsets.getD i {} := List.getD_append _ _ _ _ hi
    rw [hgd] at h3 ⊢
    exact hinv i h1 hi h3
  · exfalso
    have hieq : i = w.objectOffsets.length := by omega
    have hgd : ((w.objectOffsets ++
        [({ offset := -1, generation := generation, isReserved := true } : ObjectEntry)]).getD i {}) =
        ({ offset := -1, generation := generation, isReserved := true } : ObjectEntry) := by
      rw [List.getD_append_right _ _ _ _ (le_of_eq hieq.symm), hieq, Nat.sub_self]
      rfl
    rw [hgd] at h3
    exact h3 rfl

theorem headerInvariant_writeObject (w : PDFStreamingDocumentWriter) (object : PDFObject)
    (generation : Int) (hinv : HeaderInvariant w) (hFail : w.device.failed = false) :
    HeaderInvariant (w.writeObject object generation).1 := by
  by_cases hOpen : w.isOpen = true
  · rw [writeObject_open w object generation hOpen hFail]
    intro i h1 h2 h3
    simp only [List.length_append, List.length_cons, List.length_nil] at h2
    by_cases hi : i < w.objectOffsets.length
    · have hgd : ((w.objectOffsets ++
          [({ offset := w.device.pos, generation := generation, isReserved := false } :
            ObjectEntry)]).getD i {}) =
          w.objectOffsets.getD i {} := List.getD_append _ _ _ _ hi
      rw [hgd] at h3 ⊢
      have hold := hinv i h1 hi h3
      exact ⟨hold.1, startsWithAt_append _ _ _ _ hold.2⟩
    · have hieq : i = w.objectOffsets.length := by omega
      have hgd : ((w.objectOffsets ++
          [({ offset := w.device.pos, generation := generation, isReserved := false } :
            ObjectEntry)]).getD i {}) =
          ({ offset := w.device.pos, generation := generation, isReserved := false } :
            ObjectEntry) := by
        rw [List.getD_append_right _ _ _ _ (le_of_eq hieq.symm), hieq, Nat.sub_self]
        rfl
      rw [hgd]
      refine ⟨by show (0 : Int) ≤ w.device.pos; unfold Device.pos; exact Int.natCast_nonneg _, ?_⟩
      show startsWithAt _ ((w.device.pos : Int)).toNat (headerPattern (i : Int) generation)
      have hpos : ((w.device.pos : Int)).toNat = w.device.bytes.length := by
        unfold Device.pos
        exact Int.toNat_natCast _
      rw [hpos, hieq]
      exact startsWithAt_of_eq_append _ _ _
        (serializeObject object ++ (bs "endobj" ++ crlf)) (by simp [List.append_assoc])
  · have hOpen2 : w.isOpen = false := Bool.eq_false_iff.mpr hOpen
    rw [writeObject_not_open w object generation hOpen2]
    exact hinv

theorem headerInvariant_writeReservedObject (w : PDFStreamingDocumentWriter)
    (reference : PDFObjectReference) (object : PDFObject)
    (hinv : HeaderInvariant w) (hFail : w.device.failed = false)
    (hgen : (w.writeReservedObject reference object).2 = true →
      reference.generation =
        (w.objectOffsets.getD reference.objectNumber.toNat {}).generation) :
    HeaderInvariant (w.writeReservedObject reference object).1 := by
  by_cases hOpen : w.isOpen = true
  case neg =>
    rw [writeReservedObject_not_open w reference object (Bool.eq_false_iff.mpr hOpen)]
    exact hinv
  by_cases h1 : 0 ≤ reference.objectNumber
  case neg =>
    rw [writeReservedObject_out_of_range w reference object (Or.inl (not_le.mp h1))]
    exact hinv
  by_cases h2 : reference.objectNumber < (w.objectOffsets.length : Int)
  case neg =>
    rw [writeReservedObject_out_of_range w reference object (Or.inr (not_lt.mp h2))]
    exact hinv
  by_cases h3 : (w.objectOffsets.getD reference.objectNumber.toNat {}).isReserved = true ∧
      (w.objectOffsets.getD reference.objectNumber.toNat {}).offset = -1
  case neg =>
    rw [writeReservedObject_not_reserved w reference object h3]
    exact hinv
  have hsucc := writeReservedObject_success w reference object hOpen hFail h1 h2 h3.1 h3.2
  have hgen2 := hgen (by rw [hsucc])
  have hidxlt : reference.objectNumber.toNat < w.objectOffsets.length := by omega
  rw [hsucc]
  intro i hge1 hlen hoff
  by_cases hii : i = reference.objectNumber.toNat
  · subst hii
    have hgd : ((w.objectOffsets.set reference.objectNumber.toNat
        { w.objectOffsets.getD reference.objectNumber.toNat {} with
            offset := w.device.pos, isReserved := false }).getD
        reference.objectNumber.toNat {}) =
        ({ w.objectOffsets.getD reference.objectNumber.toNat {} with
            offset := w.device.pos, isReserved := false } : ObjectEntry) := by
      simp [List.getD_eq_getElem?_getD, List.getElem?_set_self hidxlt]
    rw [hgd]
    have hoffEq : ({ w.objectOffsets.getD reference.objectNumber.toNat {} with
        offset := w.device.pos, isReserved := false } : ObjectEntry).offset = w.device.pos := rfl
    have hgenEq : ({ w.objectOffsets.getD reference.objectNumber.toNat {} with
        offset := w.device.pos, isReserved := false } : ObjectEntry).generation =
        (w.objectOffsets.getD reference.objectNumber.toNat {}).generation := rfl
    rw [hoffEq, hgenEq, ← hgen2]
    have hio : ((reference.objectNumber.toNat : Nat) : Int) = reference.objectNumber :=
      Int.toNat_of_nonneg h1
    rw [hio]
    refine ⟨?_, ?_⟩
    · show (0 : Int) ≤ w.device.pos
      unfold Device.pos
      exact Int.natCast_nonneg _
    · have hpn : (w.device.pos).toNat = w.device.bytes.length := by
        unfold Device.pos
        exact Int.toNat_natCast _
      rw [hpn]
      exact startsWithAt_of_eq_append _ _ _
        (serializeObject object ++ (bs "endobj" ++ crlf)) (by simp [List.append_assoc])
  · have hgd : ((w.objectOffsets.set reference.objectNumber.toNat
        { w.objectOffsets.getD reference.objectNumber.toNat {} with
            offset := w.device.pos, isReserved := false }).getD i {}) =
        w.objectOffsets.getD i {} := by
      simp [List.getD_eq_getElem?_getD, List.getElem?_set_ne (fun he => hii he.symm)]
    have hlen2 : i < w.objectOffsets.length := by
      simpa using hlen
    rw [hgd] at hoff ⊢
    have hold := hinv i hge1 hlen2 hoff
    exact ⟨hold.1, startsWithAt_append _ _ _ _ hold.2⟩

theorem writeObject_failed_eq (w : PDFStreamingDocumentWriter) (object : PDFObject)
    (generation : Int) :
    (w.writeObject object generation).1.device.failed = w.device.failed := by
  unfold PDFStreamingDocumentWriter.writeObject
  split
  · rfl
  · simp [PDFStreamingDocumentWriter.writeObjectHeader,
      PDFStreamingDocumentWriter.writeObjectContent,
      PDFStreamingDocumentWriter.writeObjectFooter,
      PDFStreamingDocumentWriter.writeCRLF, Device.write_failed_eq]

theorem writeReservedObject_failed_eq (w : PDFStreamingDocumentWriter)
    (reference : PDFObjectReference) (object : PDFObject) :
    (w.writeReservedObject reference object).1.device.failed = w.device.failed := by
  unfold PDFStreamingDocumentWriter.writeReservedObject
  split
  · rfl
  · dsimp only
    split
    · rfl
    · simp [PDFStreamingDocumentWriter.writeObjectHeader,
        PDFStreamingDocumentWriter.writeObjectContent,
        PDFStreamingDocumentWriter.writeObjectFooter,
        PDFStreamingDocumentWriter.writeCRLF, Device.write_failed_eq]

theorem runCmd_failed_eq (w : PDFStreamingDocumentWriter) (c : WriterCmd) :
    (runCmd w c).device.failed = w.device.failed := by
  cases c <;>
    simp [runCmd, writeObject_failed_eq, writeReservedObject_failed_eq, reserveObject_spec,
      addPage_spec, PDFStreamingDocumentWriter.setCatalogReference,
      PDFStreamingDocumentWriter.setInfoReference]

theorem headerInvariant_runCmd (w : PDFStreamingDocumentWriter) (c : WriterCmd)
    (hinv : HeaderInvariant w) (hFail : w.device.failed = false)
    (hgenc : genConsistent w c = true) :
    HeaderInvariant (runCmd w c) := by
  cases c with
  | writeObjectCmd object generation =>
    exact headerInvariant_writeObject w object generation hinv hFail
  | reserveObjectCmd generation =>
    exact headerInvariant_reserveObject w generation hinv
  | writeReservedObjectCmd reference object =>
    apply headerInvariant_writeReservedObject w reference object hinv hFail
    intro hs
    simp only [genConsistent, hs] at hgenc
    simpa using hgenc
  | addPageCmd reference =>
    exact headerInvariant_extend w _ hinv rfl ⟨[], by simp [runCmd, addPage_spec]⟩
  | setCatalogReferenceCmd reference =>
    exact headerInvariant_extend w _ hinv rfl
      ⟨[], by simp [runCmd, PDFStreamingDocumentWriter.setCatalogReference]⟩
  | setInfoReferenceCmd reference =>
    exact headerInvariant_extend w _ hinv rfl
      ⟨[], by simp [runCmd, PDFStreamingDocumentWriter.setInfoReference]⟩

theorem headerInvariant_runCmds (cmds : List WriterCmd) :
    ∀ w : PDFStreamingDocumentWriter, HeaderInvariant w → w.device.failed = false →
    allGenConsistent w cmds = true →
    HeaderInvariant (runCmds w cmds) ∧ (runCmds w cmds).device.failed = false := by
  induction cmds with
  | nil =>
    intro w hinv hFail _
    exact ⟨hinv, hFail⟩
  | cons c cs ih =>
    intro w hinv hFail hall
    simp only [allGenConsistent, Bool.and_eq_true] at hall
    have h1 := headerInvariant_runCmd w c hinv hFail hall.1
    have h2 : (runCmd w c).device.failed = false := by
      rw [runCmd_failed_eq]
      exact hFail
    simp only [runCmds]
    exact ih (runCmd w c) h1 h2 hall.2

theorem beginDocument_objectOffsets (w : PDFStreamingDocumentWriter) (version : Nat × Nat) :
    (w.beginDocument version).1.objectOffsets = w.objectOffsets := by
  unfold PDFStreamingDocumentWriter.beginDocument
  split
  · rfl
  · rfl

theorem beginDocument_failed_eq (w : PDFStreamingDocumentWriter) (version : Nat × Nat) :
    (w.beginDocument version).1.device.failed = w.device.failed := by
  unfold PDFStreamingDocumentWriter.beginDocument
  split
  · rfl
  · simp [PDFStreamingDocumentWriter.writeCRLF, Device.write_failed_eq]

theorem headerInvariant_begin (d : Device) (version : Nat × Nat) :
    HeaderInvariant ((mkWriter d).beginDocument version).1 := by
  intro i h1 h2 h3
  rw [beginDocument_objectOffsets] at h2
  exact absurd h2 (by simp [mkWriter]; omega)

theorem synthesizeCatalogStep_failed_eq (w : PDFStreamingDocumentWriter) :
    w.synthesizeCatalogStep.device.failed = w.device.failed := by
  unfold PDFStreamingDocumentWriter.synthesizeCatalogStep
  split
  · show ((w.createPageTree.1.createCatalog w.createPageTree.2).1).device.failed = _
    unfold PDFStreamingDocumentWriter.createCatalog PDFStreamingDocumentWriter.createPageTree
    rw [writeObject_failed_eq, writeObject_failed_eq]
  · rfl

theorem headerInvariant_synthesize (w : PDFStreamingDocumentWriter)
    (hinv : HeaderInvariant w) (hFail : w.device.failed = false) :
    HeaderInvariant w.synthesizeCatalogStep := by
  unfold PDFStreamingDocumentWriter.synthesizeCatalogStep
  split
  · have hi1 : HeaderInvariant w.createPageTree.1 := by
      unfold PDFStreamingDocumentWriter.createPageTree
      exact headerInvariant_writeObject _ _ _ hinv hFail
    have hf1 : w.createPageTree.1.device.failed = false := by
      unfold PDFStreamingDocumentWriter.createPageTree
      rw [writeObject_failed_eq]
      exact hFail
    have hi2 : HeaderInvariant (w.createPageTree.1.createCatalog w.createPageTree.2).1 := by
      unfold PDFStreamingDocumentWriter.createCatalog
      exact headerInvariant_writeObject _ _ _ hi1 hf1
    exact headerInvariant_extend _ _ hi2 rfl ⟨[], by simp⟩
  · exact hinv

theorem headerInvariant_endDocument (w : PDFStreamingDocumentWriter)
    (hinv : HeaderInvariant w) (hFail : w.device.failed = false) :
    HeaderInvariant (w.endDocument).1 := by
  by_cases hOpen : w.isOpen = true
  · cases hfu : firstUnfulfilled w.objectOffsets with
    | some i =>
      rw [endDocument_unfulfilled w i hOpen hfu]
      exact hinv
    | none =>
      have hsf : w.synthesizeCatalogStep.device.failed = false := by
        rw [synthesizeCatalogStep_failed_eq]
        exact hFail
      rw [endDocument_success w hOpen hfu hsf]
      exact headerInvariant_extend _ _ (headerInvariant_synthesize w hinv hFail) rfl
        ⟨finalizeTail w.synthesizeCatalogStep, rfl⟩
  · rw [endDocument_not_open w (Bool.eq_false_iff.mpr hOpen)]
    exact hinv

/-- C1 amended: starting from a fresh writer opened by beginDocument over
a healthy sink, and running any trace of writer operations in which every
successful writeReservedObject call passes the generation recorded for
its slot at reservation time, every populated slot records as its offset
the byte position at which its header was about to be written: the sink
holds exactly the header line of the slot number and the slot generation
at that offset, both before and after finalization by endDocument. -/
theorem c1_header_offsets (d : Device) (version : Nat × Nat) (cmds : List WriterCmd)
    (hFail : d.failed = false)
    (hGen : allGenConsistent ((mkWriter d).beginDocument version).1 cmds = true) :
    HeaderInvariant (runCmds ((mkWriter d).beginDocument version).1 cmds) ∧
    HeaderInvariant ((runCmds ((mkWriter d).beginDocument version).1 cmds).endDocument).1 := by
  have h0 : HeaderInvariant ((mkWriter d).beginDocument version).1 :=
    headerInvariant_begin d version
  have hf0 : ((mkWriter d).beginDocument version).1.device.failed = false := by
    rw [beginDocument_failed_eq]
    exact hFail
  have hrun := headerInvariant_runCmds cmds _ h0 hf0 hGen
  exact ⟨hrun.1, headerInvariant_endDocument _ hrun.1 hrun.2⟩

/-- Witness for C1: a trace reserving slot 1, fulfilling it with the
reserved generation, and writing one more object. -/
theorem c1_header_offsets_witness :
    HeaderInvariant (runCmds ((mkWriter {}).beginDocument (1, 7)).1
      [WriterCmd.reserveObjectCmd 0,
       WriterCmd.writeReservedObjectCmd { objectNumber := 1, generation := 0 } (PDFObject.int 42),
       WriterCmd.writeObjectCmd PDFObject.null 0]) ∧
    HeaderInvariant ((runCmds ((mkWriter {}).beginDocument (1, 7)).1
      [WriterCmd.reserveObjectCmd 0,
       WriterCmd.writeReservedObjectCmd { objectNumber := 1, generation := 0 } (PDFObject.int 42),
       WriterCmd.writeObjectCmd PDFObject.null 0]).endDocument).1 :=
  c1_header_offsets {} (1, 7)
    [WriterCmd.reserveObjectCmd 0,
     WriterCmd.writeReservedObjectCmd { objectNumber := 1, generation := 0 } (PDFObject.int 42),
     WriterCmd.writeObjectCmd PDFObject.null 0]
    rfl (by decide)

/-- C1 counterexample: a successful trace in which writeReservedObject is
called with a generation different from the reserved one; the finalized
file does not hold the header made of the slot number and the slot
generation at the recorded offset of populated slot 1, refuting the claim
as stated over all successful call sequences. -/
theorem c1_counterexample :
    ((((mkWriter {}).beginDocument (1, 7)).1.reserveObject 0).1.writeReservedObject
        { objectNumber := 1, generation := 5 } PDFObject.null).2 = true ∧
    (((((mkWriter {}).beginDocument (1, 7)).1.reserveObject 0).1.writeReservedObject
        { objectNumber := 1, generation := 5 } PDFObject.null).1.endDocument).2 =
      PDFOperationResult.success ∧
    (((((mkWriter {}).beginDocument (1, 7)).1.reserveObject 0).1.writeReservedObject
        { objectNumber := 1, generation := 5 }
        PDFObject.null).1.objectOffsets.getD 1 {}).offset ≠ -1 ∧
    ¬ startsWithAt
        ((((((mkWriter {}).beginDocument (1, 7)).1.reserveObject 0).1.writeReservedObject
          { objectNumber := 1, generation := 5 } PDFObject.null).1.endDocument).1.device.bytes)
        ((((((mkWriter {}).beginDocument (1, 7)).1.reserveObject 0).1.writeReservedObject
          { objectNumber := 1, generation := 5 }
          PDFObject.null).1.endDocument).1.objectOffsets.getD 1 {}).offset.toNat
        (headerPattern (1 : Int)
          ((((((mkWriter {}).beginDocument (1, 7)).1.reserveObject 0).1.writeReservedObject
            { objectNumber := 1, generation := 5 }
            PDFObject.null).1.endDocument).1.objectOffsets.getD 1 {}).generation) := by
  decide

end PDF4QT
